import Mathlib

/-!
Servedi: token lifecycle and session validation.

A shallow embedding of the authentication core of the Servedi repository:

* `backend/utils/jwt.js` (token issuing and verification),
* `backend/middleware/auth.js` (`authenticateToken`, `requireRole`, `optionalAuth`),
* `backend/controllers/authController.js` (`register`, `login`, `refreshToken`, `logout`,
  `getProfile`) and the routes of `backend/routes/auth.js`,
* `backend/controllers/userController.js` (`deleteAccount`, `updateProfile`, pagination),
* `frontend/src/context/AuthContext.jsx` (the axios hooks and operations of `AuthProvider`),
* `frontend/src/pages/Register.jsx` and `Profile.jsx` (form validation, services text).

Handlers are pure functions from the world they run in (configuration, clock, outcome of
each database operation), the store and the request to the new store and the response.
-/

namespace Servedi

/-! ## Values -/

/-- A thrown JavaScript error. The handlers branch on `name` (and, for a driver error,
on `code`); `message` is what a development build echoes; `errors` are the messages
of the entries of a validation error. -/
structure JsError where
  name : String
  message : String
  code : Option Nat := none
  errors : List String := []
deriving DecidableEq, Repr

/-- The claims object handed to `jwt.sign`: `{ userId, email, role }`. -/
structure Payload where
  userId : Nat
  email : String
  role : String
deriving DecidableEq, Repr

/-- A token string as it travels in a header or a cookie, symbolically: either the
compact serialisation of `payload` plus `iat` and `exp`, signed (HS256) under `secret`,
or any other text. Two signed tokens are the same string exactly when secret, payload,
issue time and expiry agree (the signature is a deterministic function of them). -/
inductive Token where
  | signed (secret : String) (payload : Payload) (iat : Nat) (exp : Nat)
  | raw (text : String)
deriving DecidableEq, Repr

/-- JavaScript truthiness of a string: everything but the empty string. -/
def Token.truthy : Token → Bool
  | .raw "" => false
  | _ => true

/-- What `jwt.verify` returns: the signed claims with `iat` and `exp`. -/
structure Decoded where
  userId : Nat
  email : String
  role : String
  iat : Nat
  exp : Nat
deriving DecidableEq, Repr

/-- The part of `process.env` the backend reads. A lifetime is given in seconds
(the span its text denotes); `none` is an unset variable. -/
structure ProcessEnv where
  JWT_ACCESS_SECRET : String
  JWT_REFRESH_SECRET : String
  JWT_ACCESS_EXPIRE : Option Nat
  JWT_REFRESH_EXPIRE : Option Nat
  NODE_ENV : String

/-- What a handler call sees besides store and request: the environment, the clock in
whole seconds (`Math.floor(Date.now() / 1000)`), the fate of the `k`-th database
operation the handler awaits (`none`: it completes, `some e`: it rejects with `e`), and
the password comparison of the user model (`candidate`, stored value). -/
structure World where
  env : ProcessEnv
  now : Nat
  dbFault : Nat → Option JsError
  bcryptCompare : String → String → Bool

/-- One element of a principal's `refreshTokens` array. -/
structure RefreshEntry where
  token : Token
  createdAt : Nat
deriving DecidableEq, Repr

/-- A stored principal record. -/
structure User where
  _id : Nat
  email : String
  password : String
  role : String
  isActive : Bool
  refreshTokens : List RefreshEntry
deriving DecidableEq, Repr

/-- A principal as loaded with `.select('-password -refreshTokens')`: the two excluded
fields are absent. -/
structure UserDoc where
  _id : Nat
  email : String
  role : String
  isActive : Bool
deriving DecidableEq, Repr

/-- The projection `.select('-password -refreshTokens')`. -/
def User.select (u : User) : UserDoc :=
  { _id := u._id, email := u.email, role := u.role, isActive := u.isActive }

/-- The collection of principal records. -/
structure Db where
  users : List User
deriving DecidableEq, Repr

/-- Options of `res.cookie`. -/
structure CookieOptions where
  httpOnly : Bool
  secure : Bool
  sameSite : String
  maxAge : Nat
deriving DecidableEq, Repr

/-- What a response does to the `refreshToken` cookie. -/
inductive CookieOp where
  | set (value : Token) (options : CookieOptions)
  | clear
deriving DecidableEq, Repr

/-- The JSON body of a response (the fields the auth endpoints use). -/
structure Body where
  message : String
  accessToken : Option Token
  user : Option UserDoc
  error : Option String
  errors : Option (List String) := none
deriving DecidableEq, Repr

/-- An HTTP response: status, body, and the cookie operation if any. -/
structure Response where
  status : Nat
  body : Body
  cookie : Option CookieOp
deriving DecidableEq, Repr

/-- An incoming request. `authorization` is `req.headers['authorization']` given by its
pieces between single spaces (what `split(' ')` returns, so `"Bearer x"` is
`[raw "Bearer", x]`); `refreshToken` is `req.cookies.refreshToken`; `email` and
`password` are the body fields login reads; `user` is `req.user`. -/
structure Req where
  authorization : Option (List Token)
  refreshToken : Option Token
  email : Option String
  password : Option String
  user : Option UserDoc
deriving DecidableEq, Repr

/-- What a middleware stage did: the request as it leaves the stage, the responses the
stage sent, and how many times it called `next`. -/
structure MwOut where
  req : Req
  sent : List Response
  nextCalls : Nat
deriving DecidableEq, Repr

/-- The argument of `requireRole`: one role or an array of roles. -/
inductive Roles where
  | one (role : String)
  | many (roles : List String)
deriving DecidableEq, Repr

/-! ## The jsonwebtoken library -/

/-- Library call `jwt.sign(payload, secret, { expiresIn })` at clock `now`: the claims get
`iat = now` and `exp = now + expiresIn` and are signed under `secret`. -/
def jwt.sign (payload : Payload) (secret : String) (expiresIn : Nat) (now : Nat) : Token :=
  .signed secret payload now (now + expiresIn)

/-- Library call `jwt.verify(token, secret)` at clock `now`: a string that is no token signed under
`secret` throws `JsonWebTokenError`; a well-signed token whose `exp` is reached throws
`TokenExpiredError`; otherwise the claims are returned. -/
def jwt.verify (token : Token) (secret : String) (now : Nat) : Except JsError Decoded :=
  match token with
  | .raw _ => .error { name := "JsonWebTokenError", message := "jwt malformed" }
  | .signed k p iat exp =>
    if k ≠ secret then .error { name := "JsonWebTokenError", message := "invalid signature" }
    else if now ≥ exp then .error { name := "TokenExpiredError", message := "jwt expired" }
    else .ok { userId := p.userId, email := p.email, role := p.role, iat := iat, exp := exp }

/-! ## backend/utils/jwt.js -/

def generateAccessToken (w : World) (payload : Payload) : Token :=
  jwt.sign payload w.env.JWT_ACCESS_SECRET (w.env.JWT_ACCESS_EXPIRE.getD 900) w.now

def generateRefreshToken (w : World) (payload : Payload) : Token :=
  jwt.sign payload w.env.JWT_REFRESH_SECRET (w.env.JWT_REFRESH_EXPIRE.getD 604800) w.now

def verifyAccessToken (w : World) (token : Token) : Except JsError Decoded :=
  jwt.verify token w.env.JWT_ACCESS_SECRET w.now

def verifyRefreshToken (w : World) (token : Token) : Except JsError Decoded :=
  jwt.verify token w.env.JWT_REFRESH_SECRET w.now

/-- The pair `{ accessToken, refreshToken }`. -/
structure TokenPair where
  accessToken : Token
  refreshToken : Token
deriving DecidableEq, Repr

def generateTokenPair (w : World) (payload : Payload) : TokenPair :=
  let accessToken := generateAccessToken w payload
  let refreshToken := generateRefreshToken w payload
  { accessToken := accessToken, refreshToken := refreshToken }

/-! ## The principal store (Directory Service and SessionStore) -/

/-- Replace the first record whose id is `id` by its image under `f`. -/
def updateFirst (id : Nat) (f : User → User) : List User → List User
  | [] => []
  | u :: rest => if u._id == id then f u :: rest else u :: updateFirst id f rest

/-- Query `User.findById(id)` as the `k`-th database operation of the handler. -/
def User.findById (w : World) (k : Nat) (db : Db) (id : Nat) : Except JsError (Option User) :=
  match w.dbFault k with
  | some e => .error e
  | none => .ok (db.users.find? (fun u => u._id == id))

/-- Query `User.findOne({ email })` as the `k`-th database operation of the handler. -/
def User.findOne (w : World) (k : Nat) (db : Db) (email : String) :
    Except JsError (Option User) :=
  match w.dbFault k with
  | some e => .error e
  | none => .ok (db.users.find? (fun u => u.email == email))

/-- Update `User.findByIdAndUpdate(id, { isActive: false }, { new: true })` as the `k`-th
database operation: the new store and the updated record, `null` when there is none. -/
def User.findByIdAndUpdate_isActive_false (w : World) (k : Nat) (db : Db) (id : Nat) :
    Except JsError (Db × Option User) :=
  match w.dbFault k with
  | some e => .error e
  | none =>
    let users := updateFirst id (fun u => { u with isActive := false }) db.users
    .ok ({ users := users }, users.find? (fun u => u._id == id))

/-- Modelled from the spec: `models/User.js`, which defines `removeRefreshToken`, is not
among the sources. SessionStore §4.2: `removeRefreshToken(principalId, token) -> ok`,
remove-by-value, idempotent (removing an absent token is not an error); the write is
the `k`-th database operation of the handler. -/
def removeRefreshToken (w : World) (k : Nat) (db : Db) (principalId : Nat) (token : Token) :
    Except JsError Db :=
  match w.dbFault k with
  | some e => .error e
  | none =>
    .ok { users := updateFirst principalId
            (fun u => { u with refreshTokens := u.refreshTokens.filter (fun rt => rt.token != token) })
            db.users }

/-- Modelled from the spec: `models/User.js`, which defines `addRefreshToken`, is not
among the sources. SessionStore §4.2:
`addRefreshToken(principalId, token) -> ok | fails(PrincipalNotFound)`; the entry
carries its issuance time; the write is the `k`-th database operation of the handler. -/
def addRefreshToken (w : World) (k : Nat) (db : Db) (principalId : Nat) (token : Token) :
    Except JsError Db :=
  match w.dbFault k with
  | some e => .error e
  | none =>
    match db.users.find? (fun u => u._id == principalId) with
    | none => .error { name := "PrincipalNotFound", message := "principal not found" }
    | some _ =>
      .ok { users := updateFirst principalId
              (fun u => { u with refreshTokens := u.refreshTokens ++ [{ token := token, createdAt := w.now }] })
              db.users }

/-- Modelled from the spec: `models/User.js`, which defines `comparePassword`, is not
among the sources; the comparison of a candidate with the stored password is the
world's `bcryptCompare`. -/
def User.comparePassword (w : World) (u : User) (candidate : String) : Bool :=
  w.bcryptCompare candidate u.password

/-! ## Response helpers -/

/-- The answer `res.status(status).json({ message })`. -/
def jsonMessage (status : Nat) (message : String) : Response :=
  { status := status
    body := { message := message, accessToken := none, user := none, error := none }
    cookie := none }

/-- The `500` answer of a controller's catch block:
`{ message, error: NODE_ENV === 'development' ? error.message : 'Internal server error' }`. -/
def internalError (w : World) (message : String) (error : JsError) : Response :=
  { status := 500
    body := { message := message, accessToken := none, user := none
              error := some (if w.env.NODE_ENV == "development" then error.message
                             else "Internal server error") }
    cookie := none }

/-- The options every `res.cookie('refreshToken', ...)` call passes. -/
def refreshCookieOptions (w : World) : CookieOptions :=
  { httpOnly := true
    secure := w.env.NODE_ENV == "production"
    sameSite := "strict"
    maxAge := 7 * 24 * 60 * 60 * 1000 }

/-! ## backend/controllers/authController.js -/

/-- The `try` block of `refreshToken`: the store as the block leaves it, and the
response it sent or the error it threw. -/
def refreshTokenTry (w : World) (db : Db) (req : Req) : Db × Except JsError Response :=
  match req.refreshToken with
  | none => (db, .ok (jsonMessage 401 "Refresh token required"))
  | some token =>
    if !token.truthy then (db, .ok (jsonMessage 401 "Refresh token required"))
    else
      match verifyRefreshToken w token with
      | .error e => (db, .error e)
      | .ok decoded =>
        match User.findById w 0 db decoded.userId with
        | .error e => (db, .error e)
        | .ok none => (db, .ok (jsonMessage 401 "Invalid refresh token"))
        | .ok (some user) =>
          if !user.isActive then (db, .ok (jsonMessage 401 "Invalid refresh token"))
          else
            let tokenExists := user.refreshTokens.any (fun rt => rt.token == token)
            if !tokenExists then (db, .ok (jsonMessage 401 "Invalid refresh token"))
            else
              let tokenPayload : Payload :=
                { userId := user._id, email := user.email, role := user.role }
              let pair := generateTokenPair w tokenPayload
              match removeRefreshToken w 1 db user._id token with
              | .error e => (db, .error e)
              | .ok db1 =>
                match addRefreshToken w 2 db1 user._id pair.refreshToken with
                | .error e => (db1, .error e)
                | .ok db2 =>
                  (db2, .ok
                    { status := 200
                      body := { message := "Token refreshed successfully"
                                accessToken := some pair.accessToken
                                user := none, error := none }
                      cookie := some (.set pair.refreshToken (refreshCookieOptions w)) })

/-- The refresh endpoint `POST /auth/refresh-token`. -/
def refreshToken (w : World) (db : Db) (req : Req) : Db × Response :=
  match refreshTokenTry w db req with
  | (db1, .ok res) => (db1, res)
  | (db1, .error error) =>
    if error.name == "JsonWebTokenError" || error.name == "TokenExpiredError" then
      (db1, jsonMessage 401 "Invalid refresh token")
    else (db1, internalError w "Token refresh failed" error)

/-- The `try` block of `login`. The `user.toJSON()` of the response body (from the
absent user model) is taken to be the record without password and refresh tokens. -/
def loginTry (w : World) (db : Db) (req : Req) : Db × Except JsError Response :=
  let missing (field : Option String) : Bool :=
    match field with
    | none => true
    | some s => s == ""
  if missing req.email || missing req.password then
    (db, .ok (jsonMessage 400 "Email and password are required"))
  else
    let email := req.email.getD ""
    let password := req.password.getD ""
    match User.findOne w 0 db email with
    | .error e => (db, .error e)
    | .ok none => (db, .ok (jsonMessage 401 "Invalid credentials"))
    | .ok (some user) =>
      if !user.isActive then (db, .ok (jsonMessage 401 "Invalid credentials"))
      else
        let isPasswordValid := User.comparePassword w user password
        if !isPasswordValid then (db, .ok (jsonMessage 401 "Invalid credentials"))
        else
          let tokenPayload : Payload :=
            { userId := user._id, email := user.email, role := user.role }
          let pair := generateTokenPair w tokenPayload
          match addRefreshToken w 1 db user._id pair.refreshToken with
          | .error e => (db, .error e)
          | .ok db1 =>
            (db1, .ok
              { status := 200
                body := { message := "Login successful"
                          accessToken := some pair.accessToken
                          user := some user.select, error := none }
                cookie := some (.set pair.refreshToken (refreshCookieOptions w)) })

/-- The login endpoint `POST /auth/login`. -/
def login (w : World) (db : Db) (req : Req) : Db × Response :=
  match loginTry w db req with
  | (db1, .ok res) => (db1, res)
  | (db1, .error error) => (db1, internalError w "Login failed" error)

/-! ## backend/middleware/auth.js -/

/-- The expression `authHeader && authHeader.split(' ')[1]`, as far as its truthiness
and its value when truthy go: the second piece of the header, if there is one. -/
def headerToken (authHeader : Option (List Token)) : Option Token :=
  match authHeader with
  | none => none
  | some pieces => pieces[1]?

/-- The `try` block of `authenticateToken`. -/
def authenticateTokenTry (w : World) (db : Db) (req : Req) : Except JsError MwOut :=
  match headerToken req.authorization with
  | none => .ok { req := req, sent := [jsonMessage 401 "Access token required"], nextCalls := 0 }
  | some token =>
    if !token.truthy then
      .ok { req := req, sent := [jsonMessage 401 "Access token required"], nextCalls := 0 }
    else
      match verifyAccessToken w token with
      | .error e => .error e
      | .ok decoded =>
        match User.findById w 0 db decoded.userId with
        | .error e => .error e
        | .ok none =>
          .ok { req := req, sent := [jsonMessage 401 "User not found or inactive"], nextCalls := 0 }
        | .ok (some u) =>
          let user := u.select
          if !user.isActive then
            .ok { req := req, sent := [jsonMessage 401 "User not found or inactive"], nextCalls := 0 }
          else
            .ok { req := { req with user := some user }, sent := [], nextCalls := 1 }

/-- The mandatory middleware. -/
def authenticateToken (w : World) (db : Db) (req : Req) : MwOut :=
  match authenticateTokenTry w db req with
  | .ok out => out
  | .error error =>
    if error.name == "JsonWebTokenError" then
      { req := req, sent := [jsonMessage 401 "Invalid token"], nextCalls := 0 }
    else if error.name == "TokenExpiredError" then
      { req := req, sent := [jsonMessage 401 "Token expired"], nextCalls := 0 }
    else
      { req := req, sent := [jsonMessage 500 "Authentication error"], nextCalls := 0 }

/-- The role gate `requireRole(roles)`. -/
def requireRole (roles : Roles) (req : Req) : MwOut :=
  match req.user with
  | none => { req := req, sent := [jsonMessage 401 "Authentication required"], nextCalls := 0 }
  | some user =>
    let userRole := user.role
    let allowedRoles :=
      match roles with
      | .many rs => rs
      | .one r => [r]
    if !allowedRoles.contains userRole then
      { req := req, sent := [jsonMessage 403 "Insufficient permissions"], nextCalls := 0 }
    else
      { req := req, sent := [], nextCalls := 1 }

/-- The `try` block of `optionalAuth`, up to and including its call of `next` (which
hands the request to the following stage and returns; Express catches what that stage
throws). -/
def optionalAuthTry (w : World) (db : Db) (req : Req) : Except JsError MwOut :=
  let proceed (r : Req) : MwOut := { req := r, sent := [], nextCalls := 1 }
  match headerToken req.authorization with
  | none => .ok (proceed req)
  | some token =>
    if token.truthy then
      match verifyAccessToken w token with
      | .error e => .error e
      | .ok decoded =>
        match User.findById w 0 db decoded.userId with
        | .error e => .error e
        | .ok none => .ok (proceed req)
        | .ok (some u) =>
          let user := u.select
          if user.isActive then .ok (proceed { req with user := some user })
          else .ok (proceed req)
    else .ok (proceed req)

/-- The optional middleware: an error thrown before `next` was called is swallowed and
`next` is called from the catch block. -/
def optionalAuth (w : World) (db : Db) (req : Req) : MwOut :=
  match optionalAuthTry w db req with
  | .ok out => out
  | .error _ => { req := req, sent := [], nextCalls := 1 }

/-! ## backend/controllers/userController.js -/

/-- The `try` block of `deleteAccount`. Reading `req.user._id` with no principal
attached throws a `TypeError`. -/
def deleteAccountTry (w : World) (db : Db) (req : Req) : Db × Except JsError Response :=
  match req.user with
  | none => (db, .error { name := "TypeError", message := "Cannot read properties of undefined" })
  | some principal =>
    let userId := principal._id
    match User.findByIdAndUpdate_isActive_false w 0 db userId with
    | .error e => (db, .error e)
    | .ok (db1, none) => (db1, .ok (jsonMessage 404 "User not found"))
    | .ok (db1, some _) =>
      (db1, .ok
        { status := 200
          body := { message := "Account deactivated successfully"
                    accessToken := none, user := none, error := none }
          cookie := some .clear })

/-- The endpoint `DELETE /users/account` (soft delete). -/
def deleteAccount (w : World) (db : Db) (req : Req) : Db × Response :=
  match deleteAccountTry w db req with
  | (db1, .ok res) => (db1, res)
  | (db1, .error error) => (db1, internalError w "Failed to deactivate account" error)

/-! ## Registration, logout, profile and the routes -/

/-- The fields of the registration body the core reads (profile fields are left out). -/
structure RegisterBody where
  email : Option String
  password : Option String
  role : Option String
deriving DecidableEq, Repr

/-- An id no stored record has (the driver generates a new `ObjectId`). -/
def freshId (db : Db) : Nat :=
  (db.users.map (fun u => u._id)).foldr max 0 + 1

/-- Modelled from the spec: `models/User.js`, which defines the schema, its validation
and `save`, is not among the sources. A new principal gets a stable unique id, is
active and has no refresh tokens; malformed input (a missing or empty email or
password, a role outside the closed set `client`, `provider`) fails with a validation
error; the write is the `k`-th database operation of the handler. The stored password
stands for what the model keeps of it. -/
def User.create (w : World) (k : Nat) (db : Db) (email password : Option String)
    (role : String) : Except JsError (Db × User) :=
  match w.dbFault k with
  | some e => .error e
  | none =>
    match email, password with
    | some e, some p =>
      if e == "" || p == "" || !(["client", "provider"].contains role) then
        .error { name := "ValidationError", message := "User validation failed"
                 errors := ["invalid input"] }
      else
        let user : User :=
          { _id := freshId db, email := e, password := p, role := role
            isActive := true, refreshTokens := [] }
        .ok ({ users := db.users ++ [user] }, user)
    | _, _ =>
      .error { name := "ValidationError", message := "User validation failed"
               errors := ["invalid input"] }

/-- The `try` block of `register`. -/
def registerTry (w : World) (db : Db) (body : RegisterBody) : Db × Except JsError Response :=
  let existingUser : Except JsError (Option User) :=
    match body.email with
    | none => .ok none
    | some email => User.findOne w 0 db email
  match existingUser with
  | .error e => (db, .error e)
  | .ok (some _) => (db, .ok (jsonMessage 400 "User with this email already exists"))
  | .ok none =>
    let role :=
      match body.role with
      | none => "client"
      | some r => if r == "" then "client" else r
    match User.create w 1 db body.email body.password role with
    | .error e => (db, .error e)
    | .ok (db1, user) =>
      let tokenPayload : Payload :=
        { userId := user._id, email := user.email, role := user.role }
      let pair := generateTokenPair w tokenPayload
      match addRefreshToken w 2 db1 user._id pair.refreshToken with
      | .error e => (db1, .error e)
      | .ok db2 =>
        (db2, .ok
          { status := 201
            body := { message := "User registered successfully"
                      accessToken := some pair.accessToken
                      user := some user.select, error := none }
            cookie := some (.set pair.refreshToken (refreshCookieOptions w)) })

/-- The registration endpoint `POST /auth/register`. -/
def register (w : World) (db : Db) (body : RegisterBody) : Db × Response :=
  match registerTry w db body with
  | (db1, .ok res) => (db1, res)
  | (db1, .error error) =>
    if error.code == some 11000 then (db1, jsonMessage 400 "Email already exists")
    else if error.name == "ValidationError" then
      (db1, { status := 400
              body := { message := "Validation error", accessToken := none, user := none
                        error := none, errors := some error.errors }
              cookie := none })
    else (db1, internalError w "Registration failed" error)

/-- The `try` block of the controller `logout`. -/
def authController.logoutTry (w : World) (db : Db) (req : Req) : Db × Except JsError Response :=
  let done : Response :=
    { status := 200
      body := { message := "Logged out successfully", accessToken := none, user := none
                error := none }
      cookie := some .clear }
  match req.refreshToken, req.user with
  | some token, some user =>
    if token.truthy then
      match removeRefreshToken w 0 db user._id token with
      | .error e => (db, .error e)
      | .ok db1 => (db1, .ok done)
    else (db, .ok done)
  | _, _ => (db, .ok done)

/-- The controller `logout` of `authController.js`. -/
def authController.logout (w : World) (db : Db) (req : Req) : Db × Response :=
  match authController.logoutTry w db req with
  | (db1, .ok res) => (db1, res)
  | (db1, .error error) => (db1, internalError w "Logout failed" error)

/-- The controller `getProfile`: the attached principal is sent back. -/
def getProfile (db : Db) (req : Req) : Db × Response :=
  (db, { status := 200
         body := { message := "Profile retrieved successfully", accessToken := none
                   user := req.user, error := none }
         cookie := none })

/-- A route `router.METHOD(path, stage, handler)`: the handler runs on the request
the stage passed on when the stage called `next`; the responses sent are those of the
stage followed by the handler's. -/
def route (stage : MwOut) (db : Db) (handler : Db → Req → Db × Response) :
    Db × List Response :=
  if stage.nextCalls = 0 then (db, stage.sent)
  else ((handler db stage.req).1, stage.sent ++ [(handler db stage.req).2])

/-- The route `router.post('/logout', authenticateToken, logout)`. Each stage counts
its own database operations. -/
def postLogout (w : World) (db : Db) (req : Req) : Db × List Response :=
  route (authenticateToken w db req) db (authController.logout w)

/-- The route `router.get('/profile', authenticateToken, getProfile)`. -/
def getProfileRoute (w : World) (db : Db) (req : Req) : Db × List Response :=
  route (authenticateToken w db req) db getProfile

/-! ## Profile update -/

/-- A scalar value in an update document. -/
inductive Scalar where
  | str (s : String)
  | bool (b : Bool)
deriving DecidableEq, Repr

/-- A value in the body of `PUT /users/profile`: a scalar, or a document of scalars
(the argument of an update operator such as `$set`). -/
inductive UpdateValue where
  | scalar (v : Scalar)
  | doc (fields : List (String × Scalar))
deriving DecidableEq, Repr

/-- The request body of `updateProfile`: its keys with their values. -/
abbrev UpdateBody := List (String × UpdateValue)

/-- The keys `updateProfile` deletes from the body. -/
def protectedKeys : List String :=
  ["email", "password", "role", "isActive", "isEmailVerified", "refreshTokens", "_id",
   "createdAt", "updatedAt"]

/-- Setting one path of a record to a value, for the fields this development keeps of
a principal; any other path is a profile field and leaves them as they are (paths
into arrays are outside the model). -/
def setField (u : User) (path : String) (v : Scalar) : User :=
  match path, v with
  | "email", .str s => { u with email := s }
  | "password", .str s => { u with password := s }
  | "role", .str s => { u with role := s }
  | "isActive", .bool b => { u with isActive := b }
  | _, _ => u

/-- The update document as the driver applies it to a record: a key that is no operator
sets that path; the operator `$set` sets every path of its document; other operators
are outside the model and change nothing here. -/
def applyUpdate (u : User) (updates : UpdateBody) : User :=
  updates.foldl
    (fun acc kv =>
      match kv with
      | (key, .scalar v) => if key.startsWith "$" then acc else setField acc key v
      | ("$set", .doc fields) => fields.foldl (fun a f => setField a f.1 f.2) acc
      | (_, .doc _) => acc)
    u

/-- Modelled from the spec: the schema of `models/User.js` is not among the sources, so
the validation run by `runValidators` is the closed role set of the spec (a role
outside `client`, `provider` fails with a validation error). The rest is the call
`User.findByIdAndUpdate(id, updates, { new: true, runValidators: true })` of
`updateProfile` as the `k`-th database operation: the new store and the updated
record, `null` when there is none. -/
def User.findByIdAndUpdate (w : World) (k : Nat) (db : Db) (id : Nat) (updates : UpdateBody) :
    Except JsError (Db × Option User) :=
  match w.dbFault k with
  | some e => .error e
  | none =>
    match db.users.find? (fun u => u._id == id) with
    | none => .ok (db, none)
    | some u =>
      let updated := applyUpdate u updates
      if !(["client", "provider"].contains updated.role) then
        .error { name := "ValidationError", message := "Validation failed"
                 errors := ["invalid role"] }
      else
        .ok ({ users := updateFirst id (fun _ => { updated with _id := u._id }) db.users },
             some { updated with _id := u._id })

/-- The `try` block of `updateProfile`. -/
def updateProfileTry (w : World) (db : Db) (req : Req) (body : UpdateBody) :
    Db × Except JsError Response :=
  let updates := body
  match req.user with
  | none => (db, .error { name := "TypeError", message := "Cannot read properties of undefined" })
  | some principal =>
    let userId := principal._id
    let updates := updates.filter (fun kv => !(protectedKeys.contains kv.1))
    match User.findByIdAndUpdate w 0 db userId updates with
    | .error e => (db, .error e)
    | .ok (db1, none) => (db1, .ok (jsonMessage 404 "User not found"))
    | .ok (db1, some user) =>
      (db1, .ok
        { status := 200
          body := { message := "Profile updated successfully", accessToken := none
                    user := some user.select, error := none }
          cookie := none })

/-- The endpoint `PUT /users/profile`. -/
def updateProfile (w : World) (db : Db) (req : Req) (body : UpdateBody) : Db × Response :=
  match updateProfileTry w db req body with
  | (db1, .ok res) => (db1, res)
  | (db1, .error error) =>
    if error.name == "ValidationError" then
      (db1, { status := 400
              body := { message := "Validation error", accessToken := none, user := none
                        error := none, errors := some error.errors }
              cookie := none })
    else (db1, internalError w "Failed to update profile" error)

/-! ## Pagination of `getAllUsers` and `getProviders` -/

/-- The page count `Math.ceil(total / parseInt(limit))`, the division and the ceiling
taken exactly (as the floating-point ones are for counts of this size). -/
def pageCount (total limit : Int) : Int :=
  Int.ceil ((total : ℚ) / (limit : ℚ))

/-- The offset `(parseInt(page) - 1) * parseInt(limit)`. -/
def skip (page limit : Int) : Int :=
  (page - 1) * limit

/-- Index `i` (from 0) of a result of `total` documents is returned on page `page`:
what `.skip(skip).limit(limit)` selects. -/
def onPage (total limit page i : Int) : Prop :=
  skip page limit ≤ i ∧ i < skip page limit + limit ∧ 0 ≤ i ∧ i < total

/-! ## frontend/src/context/AuthContext.jsx -/

/-- An axios request config: method, url, `headers.Authorization`, and the `_retry`
mark the response hook puts on it. -/
structure Config where
  method : String
  url : String
  Authorization : Option String
  _retry : Bool
deriving DecidableEq, Repr

/-- A response as axios hands it to the client: `response.status`,
`response.data.accessToken` and `response.data.user` (`none`: the field is absent). -/
structure AxiosResponse where
  status : Nat
  accessToken : Option String
  user : Option UserDoc
deriving DecidableEq, Repr

/-- The error axios rejects with: `error.config` and `error.response` (`none`: no
response was received). -/
structure AxiosError where
  config : Config
  response : Option AxiosResponse
deriving DecidableEq, Repr

/-- The client: the React state `user` and `accessToken` (`none`: null or undefined),
the `accessToken` the installed interceptors closed over when the effect last ran, the
`accessToken` slot of local storage, and the requests handed to the network so far. -/
structure Client where
  user : Option UserDoc
  accessToken : Option String
  hookToken : Option String
  storage : Option String
  log : List Config
deriving DecidableEq, Repr

/-- The network and the server behind it: the answer to a request, given the requests
sent before it (`none`: no response). -/
abbrev Server := List Config → Config → Option AxiosResponse

/-- How a request promise settles; the `none` of `Option Settled` is a promise still
pending when the budget of nested requests is used up. -/
inductive Settled where
  | fulfilled (response : AxiosResponse)
  | rejected (error : AxiosError)
deriving DecidableEq, Repr

/-- JavaScript truthiness of a token variable: a non-empty string. -/
def truthy (v : Option String) : Bool :=
  match v with
  | none => false
  | some s => s != ""

/-- The text a template literal or `setItem` makes of a value that may be undefined. -/
def text (v : Option String) : String :=
  v.getD "undefined"

/-- The request hook, closed over `accessToken`. -/
def requestInterceptor (accessToken : Option String) (config : Config) : Config :=
  if truthy accessToken then
    { config with Authorization := some ("Bearer " ++ text accessToken) }
  else config

/-- The effect with dependency `[accessToken]` has run again: the installed
interceptors are those closed over the current state. -/
def rerender (c : Client) : Client :=
  { c with hookToken := c.accessToken }

/-- The config of `axios.post('/auth/refresh-token')`. -/
def refreshConfig : Config :=
  { method := "post", url := "/auth/refresh-token", Authorization := none, _retry := false }

/-- The config of `axios.post('/auth/logout')`. -/
def logoutConfig : Config :=
  { method := "post", url := "/auth/logout", Authorization := none, _retry := false }

/-- The function `logout` of `AuthProvider`, over the axios instance it calls; the
flag tells whether it ran to its end. The `finally` block runs however the request
settles. -/
def logout (axios : Client → Config → Client × Option Settled) (c : Client) : Client × Bool :=
  match axios c logoutConfig with
  | (c1, none) => (c1, false)
  | (c1, some _) => ({ c1 with user := none, accessToken := none, storage := none }, true)

/-- The rejection handler of the response hook, over the axios instance it calls. The
call `logout()` is not awaited in the source; here it is run to its end before the
handler rejects. -/
def responseInterceptor (axios : Client → Config → Client × Option Settled) (c : Client)
    (error : AxiosError) : Client × Option Settled :=
  let originalRequest := error.config
  if error.response.map (fun r => r.status) == some 401 && !originalRequest._retry then
    let originalRequest := { originalRequest with _retry := true }
    match axios c refreshConfig with
    | (c1, none) => (c1, none)
    | (c1, some (.fulfilled response)) =>
      let newAccessToken := response.accessToken
      let c2 := { c1 with accessToken := newAccessToken, storage := some (text newAccessToken) }
      let originalRequest :=
        { originalRequest with Authorization := some ("Bearer " ++ text newAccessToken) }
      axios c2 originalRequest
    | (c1, some (.rejected refreshError)) =>
      match logout axios c1 with
      | (c2, false) => (c2, none)
      | (c2, true) => (c2, some (.rejected refreshError))
  else (c, some (.rejected error))

/-- The shared axios instance with both hooks installed, run with a budget of nested
requests: the request hook in force when the call is made runs on the config, the
request goes out (and is logged), and while the answer is awaited React re-renders;
a status outside 2xx, or no response, goes to the rejection handler of the response
hook. -/
def axios (srv : Server) : Nat → Client → Config → Client × Option Settled
  | 0, c, _ => (c, none)
  | fuel + 1, c, config =>
    let config := requestInterceptor c.hookToken config
    let c1 := rerender { c with log := c.log ++ [config] }
    match srv c.log config with
    | none => responseInterceptor (axios srv fuel) c1 { config := config, response := none }
    | some response =>
      if 200 ≤ response.status ∧ response.status < 300 then (c1, some (.fulfilled response))
      else responseInterceptor (axios srv fuel) c1 { config := config, response := some response }

/-! ## A concrete deployment, for the worked scenarios -/

/-- An environment with both secrets set and the default lifetimes. -/
def sampleEnv : ProcessEnv :=
  { JWT_ACCESS_SECRET := "access-secret"
    JWT_REFRESH_SECRET := "refresh-secret"
    JWT_ACCESS_EXPIRE := none
    JWT_REFRESH_EXPIRE := none
    NODE_ENV := "production" }

/-- The world at clock second `now`, with a database that answers and a password
comparison that holds when candidate and stored value are the same text. -/
def worldAt (now : Nat) : World :=
  { env := sampleEnv
    now := now
    dbFault := fun _ => none
    bcryptCompare := fun candidate stored => candidate == stored }

/-- The claims of the sample principal. -/
def alicePayload : Payload :=
  { userId := 1, email := "a@x.com", role := "client" }

/-- A registered, active client with the given refresh tokens. -/
def alice (tokens : List RefreshEntry) : User :=
  { _id := 1, email := "a@x.com", password := "secret1", role := "client"
    isActive := true, refreshTokens := tokens }

/-- A request that carries nothing. -/
def emptyReq : Req :=
  { authorization := none, refreshToken := none, email := none, password := none, user := none }

/-- A request whose `refreshToken` cookie is `t`. -/
def cookieReq (t : Token) : Req :=
  { emptyReq with refreshToken := some t }

/-- A request with the header `Authorization: Bearer t`. -/
def bearerReq (t : Token) : Req :=
  { emptyReq with authorization := some [.raw "Bearer", t] }

/-- A login request. -/
def loginReq (email password : String) : Req :=
  { emptyReq with email := some email, password := some password }

/-- The refresh token `generateRefreshToken` makes for the sample principal at second
`1000`. -/
def aliceRefresh1000 : Token :=
  .signed "refresh-secret" alicePayload 1000 605800

/-- The access token `generateAccessToken` makes for the sample principal at second
`1000`. -/
def aliceAccess1000 : Token :=
  .signed "access-secret" alicePayload 1000 1900

/-- A client logged in as the sample principal and holding the access token `old`. -/
def staleClient : Client :=
  { user := some (alice []).select
    accessToken := some "old"
    hookToken := some "old"
    storage := some "old"
    log := [] }

/-- The request `GET /users` as the client sent it with the token `old`. -/
def getUsers : Config :=
  { method := "get", url := "/users", Authorization := some "Bearer old", _retry := false }

/-- The rejection of `config` with a 401 response. -/
def rejected401 (config : Config) : AxiosError :=
  { config := config, response := some { status := 401, accessToken := none, user := none } }

/-- Whether a logged request is a call of `POST /auth/refresh-token`. -/
def isRefreshCall (config : Config) : Bool :=
  config.method == "post" && config.url == "/auth/refresh-token"

/-- A server that answers every request 401 (the access token is rejected and the
refresh cookie is missing, invalid or revoked). -/
def always401 : Server :=
  fun _ _ => some { status := 401, accessToken := none, user := none }

/-- A server that refreshes to the access token `new`, and answers any other request
200 when it carries `Bearer new` and 401 otherwise. -/
def renewingServer : Server :=
  fun _ config =>
    if config.url == "/auth/refresh-token" then
      some { status := 200, accessToken := some "new", user := none }
    else if config.Authorization == some "Bearer new" then
      some { status := 200, accessToken := none, user := none }
    else some { status := 401, accessToken := none, user := none }

/-- A server that refreshes to the access token `new` and answers every other request
401, whatever it carries (as `POST /auth/login` does for a wrong password). -/
def refusingServer : Server :=
  fun _ config =>
    if config.url == "/auth/refresh-token" then
      some { status := 200, accessToken := some "new", user := none }
    else some { status := 401, accessToken := none, user := none }

/-- A server whose refresh endpoint fails with 500 and whose logout endpoint answers
200; every other request is answered 401. -/
def brokenRefreshServer : Server :=
  fun _ config =>
    if config.url == "/auth/refresh-token" then
      some { status := 500, accessToken := none, user := none }
    else if config.url == "/auth/logout" then
      some { status := 200, accessToken := none, user := none }
    else some { status := 401, accessToken := none, user := none }

/-- The reasons for which the refresh endpoint rejects a cookie token `t`: it does not
verify (expired, or invalid signature), or the principal it names is missing, or
inactive, or does not list it. -/
def RefreshRejected (w : World) (db : Db) (t : Token) : Prop :=
  (∃ e, verifyRefreshToken w t = .error e) ∨
  (∃ d, verifyRefreshToken w t = .ok d ∧
    (db.users.find? (fun u => u._id == d.userId) = none ∨
      ∃ u, db.users.find? (fun u => u._id == d.userId) = some u ∧
        (u.isActive = false ∨ ∀ rt ∈ u.refreshTokens, rt.token ≠ t)))

/-- The store with the sample principal listing the refresh token issued at second
`1000`. -/
def aliceDb : Db :=
  { users := [alice [{ token := aliceRefresh1000, createdAt := 1000 }]] }

/-- The logout request of the sample principal: bearer access token and refresh
cookie, both issued at second `1000`. -/
def aliceLogoutReq : Req :=
  { bearerReq aliceAccess1000 with refreshToken := some aliceRefresh1000 }

/-- An environment in which both secrets are the same text. -/
def sharedSecretEnv : ProcessEnv :=
  { JWT_ACCESS_SECRET := "one-secret"
    JWT_REFRESH_SECRET := "one-secret"
    JWT_ACCESS_EXPIRE := none
    JWT_REFRESH_EXPIRE := none
    NODE_ENV := "production" }

/-- The world at clock second `now` under `sharedSecretEnv`. -/
def sharedSecretWorldAt (now : Nat) : World :=
  { env := sharedSecretEnv
    now := now
    dbFault := fun _ => none
    bcryptCompare := fun candidate stored => candidate == stored }

/-- The store after a rotation for principal `id`: the entries with token `old` are
filtered out of the record, then the entry for `new` is appended. -/
def rotated (db : Db) (id : Nat) (old new : Token) (now : Nat) : Db :=
  { users := updateFirst id
      (fun u => { u with refreshTokens := u.refreshTokens ++ [{ token := new, createdAt := now }] })
      (updateFirst id
        (fun u => { u with refreshTokens := u.refreshTokens.filter (fun rt => rt.token != old) })
        db.users) }

/-- The store keeps ids unique (the `_id` index of the collection). -/
def uniqueIds (db : Db) : Prop :=
  db.users.Pairwise (fun a b => a._id ≠ b._id)

/-- What "issued means stored" says of a response `res` sent in world `w` and the
store `db` the call left: there is a stored record `u` such that the cookie is set to
the refresh token generated for `u`'s id, email and role, `u` lists that token, the
body carries the access token generated for the same claims, and, under the same
environment and with the database answering, (1) until the access token expires
`authenticateToken` lets a request bearing it through with `u` attached, so that
`GET /auth/profile` answers 200 with `u`, and (2) until the refresh token expires the
refresh endpoint answers 200 to a request presenting it in the cookie. -/
def IssuedMeansStored (w : World) (db : Db) (res : Response) : Prop :=
  ∃ u : User,
    db.users.find? (fun x => x._id == u._id) = some u ∧
    res.cookie
      = some (.set (generateRefreshToken w { userId := u._id, email := u.email, role := u.role })
          (refreshCookieOptions w)) ∧
    (∃ rt ∈ u.refreshTokens,
      rt.token = generateRefreshToken w { userId := u._id, email := u.email, role := u.role }) ∧
    res.body.accessToken
      = some (generateAccessToken w { userId := u._id, email := u.email, role := u.role }) ∧
    (∀ (w2 : World) (req : Req),
      w2.env = w.env → w2.dbFault 0 = none →
      w2.now < w.now + w.env.JWT_ACCESS_EXPIRE.getD 900 →
      headerToken req.authorization
        = some (generateAccessToken w { userId := u._id, email := u.email, role := u.role }) →
      authenticateToken w2 db req
          = { req := { req with user := some u.select }, sent := [], nextCalls := 1 } ∧
        (getProfileRoute w2 db req).2.map (fun r => (r.status, r.body.user))
          = [(200, some u.select)]) ∧
    (∀ (w2 : World) (req : Req),
      w2.env = w.env → (∀ k, w2.dbFault k = none) →
      w2.now < w.now + w.env.JWT_REFRESH_EXPIRE.getD 604800 →
      req.refreshToken
        = some (generateRefreshToken w { userId := u._id, email := u.email, role := u.role }) →
      (refreshToken w2 db req).2.status = 200)

/-- A registration body for a new client. -/
def bobBody : RegisterBody :=
  { email := some "b@x.com", password := some "secret2", role := none }

/-- The `exp` claim of a signed token. -/
def Token.expiry : Token → Option Nat
  | .signed _ _ _ exp => some exp
  | .raw _ => none

/-- The `iat` claim of a signed token. -/
def Token.issuedAt : Token → Option Nat
  | .signed _ _ iat _ => some iat
  | .raw _ => none

/-- An environment whose refresh tokens live one hour. -/
def hourRefreshEnv : ProcessEnv :=
  { sampleEnv with JWT_REFRESH_EXPIRE := some 3600 }

/-- An environment whose access tokens live seven days, as long as the refresh tokens
do by default. -/
def weekAccessEnv : ProcessEnv :=
  { sampleEnv with JWT_ACCESS_EXPIRE := some 604800 }

/-- The world at clock second `now` under the environment `env`, with a database that
answers. -/
def worldOf (env : ProcessEnv) (now : Nat) : World :=
  { env := env
    now := now
    dbFault := fun _ => none
    bcryptCompare := fun candidate stored => candidate == stored }

/-- The rejection of `config` with a 500 response. -/
def rejected500 (config : Config) : AxiosError :=
  { config := config, response := some { status := 500, accessToken := none, user := none } }

/-- What the cookie claim says of a response `res` sent in world `w`, as the code has
it: the `refreshToken` cookie is set with `httpOnly`, `sameSite: 'strict'`, `secure`
exactly in production and a max-age of 7 days in milliseconds; the token it carries
was issued with the configured refresh lifetime (default 604800 s); and the max-age
equals that lifetime exactly when the lifetime is 7 days. -/
def CookieAttributes (w : World) (res : Response) : Prop :=
  ∃ tok opts iat exp,
    res.cookie = some (.set tok opts) ∧
    opts.httpOnly = true ∧
    opts.sameSite = "strict" ∧
    (opts.secure = true ↔ w.env.NODE_ENV = "production") ∧
    opts.maxAge = 7 * 24 * 60 * 60 * 1000 ∧
    opts.maxAge = 604800000 ∧
    tok.issuedAt = some iat ∧
    tok.expiry = some exp ∧
    exp - iat = w.env.JWT_REFRESH_EXPIRE.getD 604800 ∧
    (opts.maxAge = 1000 * (exp - iat) ↔ w.env.JWT_REFRESH_EXPIRE.getD 604800 = 604800)

/-! ## The client operations of `AuthProvider` -/

/-- The config of `axios.post('/auth/login', ...)`. -/
def loginConfig : Config :=
  { method := "post", url := "/auth/login", Authorization := none, _retry := false }

/-- The config of `axios.post('/auth/register', ...)`. -/
def registerConfig : Config :=
  { method := "post", url := "/auth/register", Authorization := none, _retry := false }

/-- The config of `axios.get('/auth/profile')`. -/
def profileConfig : Config :=
  { method := "get", url := "/auth/profile", Authorization := none, _retry := false }

/-- The client as `AuthProvider` mounts: no user, and the held token read from the
persisted slot (`useState(localStorage.getItem('accessToken'))`). -/
def AuthProvider.init (slot : Option String) : Client :=
  { user := none, accessToken := slot, hookToken := slot, storage := slot, log := [] }

/-- The function `login` of `AuthProvider`, over the axios instance it calls; the
result is `success` once the function has returned. -/
def AuthProvider.login (axios : Client → Config → Client × Option Settled) (c : Client) :
    Client × Option Bool :=
  match axios c loginConfig with
  | (c1, none) => (c1, none)
  | (c1, some (.fulfilled response)) =>
    ({ c1 with user := response.user, accessToken := response.accessToken
               storage := some (text response.accessToken) }, some true)
  | (c1, some (.rejected _)) => (c1, some false)

/-- The function `register` of `AuthProvider`, over the axios instance it calls. -/
def AuthProvider.register (axios : Client → Config → Client × Option Settled) (c : Client) :
    Client × Option Bool :=
  match axios c registerConfig with
  | (c1, none) => (c1, none)
  | (c1, some (.fulfilled response)) =>
    ({ c1 with user := response.user, accessToken := response.accessToken
               storage := some (text response.accessToken) }, some true)
  | (c1, some (.rejected _)) => (c1, some false)

/-- The start-up check `checkAuth`; the flag tells whether it ran to its end. -/
def AuthProvider.checkAuth (axios : Client → Config → Client × Option Settled) (c : Client) :
    Client × Bool :=
  if truthy c.accessToken then
    match axios c profileConfig with
    | (c1, none) => (c1, false)
    | (c1, some (.fulfilled response)) => ({ c1 with user := response.user }, true)
    | (c1, some (.rejected _)) => ({ c1 with storage := none, accessToken := none }, true)
  else (c, true)

/-- The mirror invariant: the persisted slot holds what is held in memory. -/
def Mirrored (c : Client) : Prop :=
  c.storage = c.accessToken

/-- The wire contract of the three issuing endpoints: a 2xx answer of login, register
or refresh carries an access token. -/
def IssuesTokens (srv : Server) : Prop :=
  ∀ log config r, srv log config = some r → 200 ≤ r.status → r.status < 300 →
    (config.url = "/auth/login" ∨ config.url = "/auth/register" ∨
      config.url = "/auth/refresh-token") →
    r.accessToken ≠ none

/-- A server that logs in, registers and refreshes with the access token `new` and
answers every other request 200. -/
def issuingServer : Server :=
  fun _ _ => some { status := 200, accessToken := some "new", user := none }

/-- The request of the authenticated sample principal (after `authenticateToken`). -/
def aliceAuthedReq : Req :=
  { bearerReq aliceAccess1000 with user := some (alice []).select }

/-! ## frontend/src/pages/Register.jsx and Profile.jsx -/

/-- A JavaScript string, as the sequence of its UTF-16 code units (`length` is the
length of the list). -/
abbrev JsString := List Nat

/-- The code units of a literal of the Basic Multilingual Plane. -/
def units (s : String) : JsString :=
  s.toList.map Char.toNat

/-- The white space and line terminators that `String.prototype.trim` strips. -/
def isWhiteSpace (u : Nat) : Bool :=
  u == 0x09 || u == 0x0A || u == 0x0B || u == 0x0C || u == 0x0D || u == 0x20 ||
  u == 0xA0 || u == 0x1680 || (0x2000 ≤ u && u ≤ 0x200A) || u == 0x2028 || u == 0x2029 ||
  u == 0x202F || u == 0x205F || u == 0x3000 || u == 0xFEFF

/-- The method `trim()`. -/
def trim (s : JsString) : JsString :=
  (s.dropWhile isWhiteSpace).rdropWhile isWhiteSpace

/-- The state `formData` of the registration form. -/
structure FormData where
  email : JsString
  password : JsString
  confirmPassword : JsString
  firstName : JsString
  lastName : JsString
  role : JsString
  phone : JsString
  businessName : JsString
  businessDescription : JsString
  services : JsString
  address : JsString
  city : JsString
  state : JsString
  zipCode : JsString
deriving DecidableEq, Repr

/-- The provider part of the submission data. -/
structure ProviderData where
  businessName : JsString
  businessDescription : JsString
  services : List JsString
  address : JsString
  city : JsString
  state : JsString
  zipCode : JsString
deriving DecidableEq, Repr

/-- The object `submissionData` handed to `register`. -/
structure SubmissionData where
  email : JsString
  password : JsString
  firstName : JsString
  lastName : JsString
  role : JsString
  phone : JsString
  provider : Option ProviderData
deriving DecidableEq, Repr

/-- The expression `text.split(',').map(s => s.trim()).filter(s => s)` of
`Register.jsx` and `Profile.jsx` (44 is the comma). -/
def parseServices (text : JsString) : List JsString :=
  ((text.splitOn 44).map trim).filter (fun s => !s.isEmpty)

/-- The text `Profile.jsx` shows for a list of services: `services.join(', ') || ''`. -/
def showServices (services : List JsString) : JsString :=
  (units ", ").intercalate services

/-- The function `validateForm` of `Register.jsx`. -/
def validateForm (formData : FormData) : List String :=
  let newErrors : List String := []
  let newErrors :=
    if formData.password != formData.confirmPassword then
      newErrors ++ ["Passwords do not match"]
    else newErrors
  let newErrors :=
    if formData.password.length < 6 then
      newErrors ++ ["Password must be at least 6 characters long"]
    else newErrors
  let newErrors :=
    if formData.role == units "provider" then
      let newErrors :=
        if (trim formData.businessName).isEmpty then
          newErrors ++ ["Business name is required for providers"]
        else newErrors
      let newErrors :=
        if (trim formData.businessDescription).isEmpty then
          newErrors ++ ["Business description is required for providers"]
        else newErrors
      newErrors
    else newErrors
  newErrors

/-- The function `handleSubmit` of `Register.jsx` up to its call of `register`: the
errors it sets, and the submission data it sends, if it sends any. -/
def handleSubmit (formData : FormData) : List String × Option SubmissionData :=
  let validationErrors := validateForm formData
  if validationErrors.length > 0 then (validationErrors, none)
  else
    let provider : Option ProviderData :=
      if formData.role == units "provider" then
        some { businessName := formData.businessName
               businessDescription := formData.businessDescription
               services := parseServices formData.services
               address := formData.address
               city := formData.city
               state := formData.state
               zipCode := formData.zipCode }
      else none
    ([], some { email := formData.email
                password := formData.password
                firstName := formData.firstName
                lastName := formData.lastName
                role := formData.role
                phone := formData.phone
                provider := provider })

/-- A filled-in form of a provider. -/
def providerForm : FormData :=
  { email := units "p@x.com", password := units "secret1", confirmPassword := units "secret1"
    firstName := units "Pat", lastName := units "Lee", role := units "provider"
    phone := units "555", businessName := units "Pat Plumbing"
    businessDescription := units "Pipes", services := units "plumbing, heating"
    address := [], city := [], state := [], zipCode := [] }

/-! # Theorems -/

/-! ## Lemmas on the store -/

theorem find_updateFirst (id j : Nat) (f : User → User) (hf : ∀ u, (f u)._id = u._id)
    (l : List User) :
    (updateFirst id f l).find? (fun u => u._id == j)
      = (l.find? (fun u => u._id == j)).map (fun u => if j = id then f u else u) := by
  induction l with
  | nil => simp [updateFirst]
  | cons u rest ih =>
    by_cases h1 : u._id = id
    · by_cases h2 : u._id = j
      · have hj : j = id := by omega
        simp [updateFirst, h1, List.find?_cons, hf, hj]
      · have hj : ¬ j = id := by omega
        have h3 : ¬ id = j := by omega
        simp [updateFirst, h1, List.find?_cons, hf, hj, h3]
    · by_cases h2 : u._id = j
      · have hj : ¬ j = id := by omega
        simp [updateFirst, h1, List.find?_cons, h2, hj]
      · simp [updateFirst, h1, List.find?_cons, h2, ih]

theorem verify_raw_empty (secret : String) (now : Nat) (d : Decoded) :
    jwt.verify (.raw "") secret now ≠ .ok d := by
  simp [jwt.verify]

theorem truthy_of_verify {token : Token} {secret : String} {now : Nat} {d : Decoded}
    (h : jwt.verify token secret now = .ok d) : token.truthy = true := by
  cases token with
  | signed k p iat exp => rfl
  | raw t => simp [jwt.verify] at h

theorem verify_error_name {token : Token} {secret : String} {now : Nat} {e : JsError}
    (h : jwt.verify token secret now = .error e) :
    e.name = "JsonWebTokenError" ∨ e.name = "TokenExpiredError" := by
  cases token with
  | raw t =>
    simp only [jwt.verify] at h
    cases h
    exact Or.inl rfl
  | signed k p iat exp =>
    simp only [jwt.verify] at h
    split at h
    · cases h
      exact Or.inl rfl
    · split at h
      · cases h
        exact Or.inr rfl
      · cases h

/-! ## The refresh endpoint -/

/-- C1: with every database operation completing, the refresh endpoint answers 200
exactly when the cookie carries a token that passes `verifyRefreshToken`, whose
principal (looked up by the `userId` claim) exists and is active and lists the literal
token; the 200 answer carries the new access token and sets the cookie to the new
refresh token; in every other case the answer is 401. -/
theorem refreshToken_accepts_iff (w : World) (db : Db) (req : Req)
    (hdb : ∀ k, w.dbFault k = none) :
    ((refreshToken w db req).2.status = 200 ↔
      ∃ token decoded user,
        req.refreshToken = some token ∧
        verifyRefreshToken w token = .ok decoded ∧
        db.users.find? (fun u => u._id == decoded.userId) = some user ∧
        user.isActive = true ∧
        ∃ rt ∈ user.refreshTokens, rt.token = token) ∧
    ((refreshToken w db req).2.status = 200 →
      ∃ user ∈ db.users,
        (refreshToken w db req).2.body.accessToken
          = some (generateAccessToken w
              { userId := user._id, email := user.email, role := user.role }) ∧
        (refreshToken w db req).2.cookie
          = some (.set (generateRefreshToken w
              { userId := user._id, email := user.email, role := user.role })
              (refreshCookieOptions w))) ∧
    ((refreshToken w db req).2.status ≠ 200 → (refreshToken w db req).2.status = 401) := by
  unfold refreshToken refreshTokenTry
  cases hreq : req.refreshToken with
  | none => simp [jsonMessage]
  | some token =>
    by_cases ht : token.truthy = true
    · cases hv : verifyRefreshToken w token with
      | error e =>
        have hn := verify_error_name hv
        have hc : (e.name == "JsonWebTokenError" || e.name == "TokenExpiredError") = true := by
          rcases hn with h | h <;> simp [h]
        simp [ht, hv, hc, jsonMessage]
      | ok decoded =>
        cases hf : db.users.find? (fun u => u._id == decoded.userId) with
        | none => simp [ht, hv, User.findById, hdb, hf, jsonMessage]
        | some user =>
          have hid : user._id = decoded.userId := by
            have := List.find?_some hf
            simpa using this
          have hmem : user ∈ db.users := List.mem_of_find?_eq_some hf
          by_cases ha : user.isActive = true
          · by_cases hx : user.refreshTokens.any (fun rt => rt.token == token) = true
            · have hfind : (updateFirst user._id
                  (fun u => { u with refreshTokens :=
                    u.refreshTokens.filter (fun rt => rt.token != token) })
                  db.users).find? (fun u => u._id == user._id) ≠ none := by
                have h := find_updateFirst user._id user._id
                  (fun u => { u with refreshTokens :=
                    u.refreshTokens.filter (fun rt => rt.token != token) })
                  (fun _ => rfl) db.users
                rw [h, hid, hf]
                simp
              cases hfd : (updateFirst user._id
                  (fun u => { u with refreshTokens :=
                    u.refreshTokens.filter (fun rt => rt.token != token) })
                  db.users).find? (fun u => u._id == user._id) with
              | none => exact absurd hfd hfind
              | some u1 =>
                have hx2 : ∃ rt ∈ user.refreshTokens, rt.token = token := by
                  simpa using hx
                simp only [ht, hv, User.findById, hdb, hf, ha, hx, removeRefreshToken,
                  addRefreshToken, hfd, generateTokenPair]
                refine ⟨?_, ?_, ?_⟩
                · simp only [Bool.not_true, Bool.false_eq_true, if_false, true_iff]
                  exact ⟨token, decoded, user, rfl, hv, hf, ha, hx2⟩
                · intro _
                  exact ⟨user, hmem, by simp, by simp⟩
                · simp
            · have hx2 : ¬ ∃ rt ∈ user.refreshTokens, rt.token = token := by
                simpa using hx
              simp only [ht, hv, User.findById, hdb, hf, ha, hx, jsonMessage]
              refine ⟨?_, ?_, ?_⟩
              · simp only [Bool.not_true, Bool.false_eq_true, if_false, Bool.not_false,
                  if_true]
                constructor
                · intro h
                  simp at h
                · rintro ⟨t, d, u, h1, h2, h3, _, h5⟩
                  cases h1
                  rw [hv] at h2
                  cases h2
                  rw [hf] at h3
                  cases h3
                  exact absurd h5 hx2
              · simp
              · simp
          · simp only [ht, hv, User.findById, hdb, hf, ha, jsonMessage]
            refine ⟨?_, ?_, ?_⟩
            · constructor
              · intro h
                simp at h
              · rintro ⟨t, d, u, h1, h2, h3, h4, _⟩
                cases h1
                rw [hv] at h2
                cases h2
                rw [hf] at h3
                cases h3
                exact absurd h4 ha
            · simp
            · simp
    · have hraw : token = .raw "" := by
        cases token with
        | signed k p iat exp => exact absurd rfl ht
        | raw t =>
          by_cases h : t = ""
          · rw [h]
          · exfalso
            apply ht
            unfold Token.truthy
            split
            · next heq =>
              cases heq
              exact absurd rfl h
            · rfl
      subst hraw
      simp [Token.truthy, jsonMessage, verifyRefreshToken, jwt.verify]

/-- Witness for `refreshToken_accepts_iff`: the sample principal at second 2000 with a
listed, unexpired refresh token is answered 200. -/
theorem refreshToken_accepts_iff_witness :
    (∀ k, (worldAt 2000).dbFault k = none) ∧
    (refreshToken (worldAt 2000) { users := [alice [{ token := aliceRefresh1000, createdAt := 1000 }]] }
      (cookieReq aliceRefresh1000)).2.status = 200 :=
  ⟨fun _ => rfl,
   (refreshToken_accepts_iff (worldAt 2000)
      { users := [alice [{ token := aliceRefresh1000, createdAt := 1000 }]] }
      (cookieReq aliceRefresh1000) (fun _ => rfl)).1.2
     ⟨aliceRefresh1000, { userId := 1, email := "a@x.com", role := "client", iat := 1000, exp := 605800 },
      alice [{ token := aliceRefresh1000, createdAt := 1000 }],
      rfl, by rfl, by decide, rfl, ⟨_, List.mem_singleton.2 rfl, rfl⟩⟩⟩

/-- C2 (evaluation at the failing input): the sample principal logs in at second 1000
and receives the refresh token `aliceRefresh1000`; a refresh in the same second accepts
it and issues, as the rotated token, the very same string, which is therefore listed
again; a second refresh presenting it (one second later) is answered 200, not 401. -/
theorem refreshToken_replay_same_second :
    (login (worldAt 1000) { users := [alice []] } (loginReq "a@x.com" "secret1")).2.cookie
      = some (.set aliceRefresh1000 (refreshCookieOptions (worldAt 1000))) ∧
    (login (worldAt 1000) { users := [alice []] } (loginReq "a@x.com" "secret1")).1
      = { users := [alice [{ token := aliceRefresh1000, createdAt := 1000 }]] } ∧
    (refreshToken (worldAt 1000)
        { users := [alice [{ token := aliceRefresh1000, createdAt := 1000 }]] }
        (cookieReq aliceRefresh1000)).2.status = 200 ∧
    (refreshToken (worldAt 1000)
        { users := [alice [{ token := aliceRefresh1000, createdAt := 1000 }]] }
        (cookieReq aliceRefresh1000)).2.cookie
      = some (.set aliceRefresh1000 (refreshCookieOptions (worldAt 1000))) ∧
    (refreshToken (worldAt 1000)
        { users := [alice [{ token := aliceRefresh1000, createdAt := 1000 }]] }
        (cookieReq aliceRefresh1000)).1
      = { users := [alice [{ token := aliceRefresh1000, createdAt := 1000 }]] } ∧
    (refreshToken (worldAt 1001)
        { users := [alice [{ token := aliceRefresh1000, createdAt := 1000 }]] }
        (cookieReq aliceRefresh1000)).2.status = 200 := by
  refine ⟨?_, ?_, ?_, ?_, ?_, ?_⟩ <;> decide

/-! ## The middleware -/

theorem not_truthy_eq {token : Token} (h : ¬ token.truthy = true) : token = .raw "" := by
  cases token with
  | signed k p iat exp => exact absurd rfl h
  | raw t =>
    by_cases ht : t = ""
    · rw [ht]
    · exfalso
      apply h
      unfold Token.truthy
      split
      · next heq =>
        cases heq
        exact absurd rfl ht
      · rfl

/-- C3: with every database operation completing, `authenticateToken` calls `next`
(once, sending nothing, with the freshly loaded principal attached) exactly when a
token is extracted from the header, `verifyAccessToken` accepts it and the principal
named by its `userId` exists and is active; otherwise it sends one 401 response, does
not call `next` and leaves the request, `req.user` included, as it came. -/
theorem authenticateToken_proceeds_iff (w : World) (db : Db) (req : Req)
    (hdb : ∀ k, w.dbFault k = none) :
    ((authenticateToken w db req).nextCalls = 1 ↔
      ∃ token decoded user,
        headerToken req.authorization = some token ∧
        verifyAccessToken w token = .ok decoded ∧
        db.users.find? (fun u => u._id == decoded.userId) = some user ∧
        user.isActive = true) ∧
    (∀ token decoded user,
        headerToken req.authorization = some token →
        verifyAccessToken w token = .ok decoded →
        db.users.find? (fun u => u._id == decoded.userId) = some user →
        user.isActive = true →
        authenticateToken w db req
          = { req := { req with user := some user.select }, sent := [], nextCalls := 1 }) ∧
    ((authenticateToken w db req).nextCalls ≠ 1 →
        (authenticateToken w db req).nextCalls = 0 ∧
        (authenticateToken w db req).req = req ∧
        ∃ r, (authenticateToken w db req).sent = [r] ∧ r.status = 401) := by
  unfold authenticateToken authenticateTokenTry
  cases hh : headerToken req.authorization with
  | none => simp [jsonMessage]
  | some token =>
    by_cases ht : token.truthy = true
    · cases hv : verifyAccessToken w token with
      | error e =>
        rcases verify_error_name hv with h | h
        · simp [ht, hv, h, jsonMessage]
          intro t d u h1 h2
          subst h1
          rw [hv] at h2
          cases h2
        · simp [ht, hv, h, jsonMessage]
          intro t d u h1 h2
          subst h1
          rw [hv] at h2
          cases h2
      | ok decoded =>
        cases hf : db.users.find? (fun u => u._id == decoded.userId) with
        | none =>
          simp [ht, hv, User.findById, hdb, hf, jsonMessage]
          intro t d u h1 h2 h3
          subst h1
          rw [hv] at h2
          cases h2
          rw [hf] at h3
          cases h3
        | some user =>
          by_cases ha : user.isActive = true
          · simp [ht, hv, User.findById, hdb, hf, ha, User.select]
            intro t d u h1 h2 h3 _
            subst h1
            rw [hv] at h2
            cases h2
            rw [hf] at h3
            cases h3
            exact ⟨rfl, rfl, rfl, ha⟩
          · simp [ht, hv, User.findById, hdb, hf, ha, User.select, jsonMessage]
            intro t d u h1 h2 h3
            subst h1
            rw [hv] at h2
            cases h2
            rw [hf] at h3
            cases h3
            simpa using ha
    · have hraw := not_truthy_eq ht
      subst hraw
      have hbad : ∀ d, verifyAccessToken w (.raw "") ≠ .ok d := fun d =>
        verify_raw_empty _ _ d
      simp [Token.truthy, jsonMessage]
      refine ⟨fun d h => absurd h (hbad d), ?_⟩
      intro t d u h1 h2
      subst h1
      exact absurd h2 (hbad d)

/-- Witness for `authenticateToken_proceeds_iff`: at second 1500 the sample principal's
access token issued at second 1000 lets the request through. -/
theorem authenticateToken_proceeds_iff_witness :
    (∀ k, (worldAt 1500).dbFault k = none) ∧
    (authenticateToken (worldAt 1500) { users := [alice []] } (bearerReq aliceAccess1000)).nextCalls
      = 1 :=
  ⟨fun _ => rfl,
   (authenticateToken_proceeds_iff (worldAt 1500) { users := [alice []] }
      (bearerReq aliceAccess1000) (fun _ => rfl)).1.2
     ⟨aliceAccess1000, { userId := 1, email := "a@x.com", role := "client", iat := 1000, exp := 1900 },
      alice [], rfl, by rfl, by decide, rfl⟩⟩

/-- C5: the role gate answers 401 when no principal is attached, 403 when the attached
principal's role is not among the allowed roles (given as one role or as a list), and
otherwise calls `next` once and sends nothing; a client is answered 403 by a gate for
provider and a provider by a gate for client, in both forms of the argument. -/
theorem requireRole_gate (roles : Roles) (req : Req) :
    (req.user = none →
      requireRole roles req
        = { req := req, sent := [jsonMessage 401 "Authentication required"], nextCalls := 0 }) ∧
    (∀ principal, req.user = some principal →
      ¬ (match roles with
          | .one r => principal.role = r
          | .many rs => principal.role ∈ rs) →
      requireRole roles req
        = { req := req, sent := [jsonMessage 403 "Insufficient permissions"], nextCalls := 0 }) ∧
    (∀ principal, req.user = some principal →
      (match roles with
        | .one r => principal.role = r
        | .many rs => principal.role ∈ rs) →
      requireRole roles req = { req := req, sent := [], nextCalls := 1 }) ∧
    (∀ principal, req.user = some principal → principal.role = "client" →
      requireRole (.one "provider") req
        = { req := req, sent := [jsonMessage 403 "Insufficient permissions"], nextCalls := 0 } ∧
      requireRole (.many ["provider"]) req
        = { req := req, sent := [jsonMessage 403 "Insufficient permissions"], nextCalls := 0 }) ∧
    (∀ principal, req.user = some principal → principal.role = "provider" →
      requireRole (.one "client") req
        = { req := req, sent := [jsonMessage 403 "Insufficient permissions"], nextCalls := 0 } ∧
      requireRole (.many ["client"]) req
        = { req := req, sent := [jsonMessage 403 "Insufficient permissions"], nextCalls := 0 }) := by
  refine ⟨?_, ?_, ?_, ?_, ?_⟩
  · intro h
    simp [requireRole, h]
  · intro principal h hnot
    cases roles with
    | one r => simp at hnot; simp [requireRole, h, hnot]
    | many rs => simp at hnot; simp [requireRole, h, hnot]
  · intro principal h hin
    cases roles with
    | one r => simp at hin; simp [requireRole, h, hin]
    | many rs => simp at hin; simp [requireRole, h, hin]
  · intro principal h hr
    simp [requireRole, h, hr]
  · intro principal h hr
    simp [requireRole, h, hr]

/-- Witness for `requireRole_gate`: a request with a client attached meets a gate for
provider and is answered 403. -/
theorem requireRole_gate_witness :
    (requireRole (.one "provider")
        { emptyReq with user := some (alice []).select }).sent.map (fun r => r.status) = [403] := by
  have h := (requireRole_gate (.one "provider")
    { emptyReq with user := some (alice []).select }).2.2.2.1 (alice []).select rfl rfl
  rw [h.1]
  rfl

/-- C6: whatever the request, the store and the fate of the principal lookup,
`optionalAuth` sends no response and calls `next` exactly once. -/
theorem optionalAuth_never_rejects (w : World) (db : Db) (req : Req) :
    (optionalAuth w db req).sent = [] ∧ (optionalAuth w db req).nextCalls = 1 := by
  unfold optionalAuth optionalAuthTry
  cases headerToken req.authorization with
  | none => simp
  | some token =>
    by_cases ht : token.truthy = true
    · cases hv : verifyAccessToken w token with
      | error e => simp [ht, hv]
      | ok decoded =>
        cases hq : User.findById w 0 db decoded.userId with
        | error e => simp [ht, hv, hq]
        | ok found =>
          cases found with
          | none => simp [ht, hv, hq]
          | some user =>
            by_cases ha : user.isActive = true
            · simp [ht, hv, hq, ha, User.select]
            · simp [ht, hv, hq, ha, User.select]
    · simp [ht]

/-- C7: on a request that enters with no principal attached, `optionalAuth` attaches
`p` exactly when `authenticateToken`, on the same request, store and world, calls
`next` with `p` attached; and whenever `authenticateToken` sends a response (401 or
500) instead, `optionalAuth` calls `next` once with no principal attached. -/
theorem optionalAuth_agrees_with_authenticateToken (w : World) (db : Db) (req : Req)
    (hreq : req.user = none) :
    (∀ p, (optionalAuth w db req).req.user = some p ↔
      ((authenticateToken w db req).nextCalls = 1 ∧
        (authenticateToken w db req).req.user = some p)) ∧
    ((authenticateToken w db req).sent ≠ [] →
      (optionalAuth w db req).req.user = none ∧
      (optionalAuth w db req).nextCalls = 1 ∧
      (optionalAuth w db req).sent = []) := by
  unfold optionalAuth optionalAuthTry authenticateToken authenticateTokenTry
  cases headerToken req.authorization with
  | none => simp [hreq]
  | some token =>
    by_cases ht : token.truthy = true
    · cases hv : verifyAccessToken w token with
      | error e =>
        by_cases h1 : e.name = "JsonWebTokenError"
        · simp [ht, hv, hreq, h1]
        · by_cases h2 : e.name = "TokenExpiredError"
          · simp [ht, hv, hreq, h2]
          · simp [ht, hv, hreq, h1, h2]
      | ok decoded =>
        cases hq : User.findById w 0 db decoded.userId with
        | error e =>
          by_cases h1 : e.name = "JsonWebTokenError"
          · simp [ht, hv, hq, hreq, h1]
          · by_cases h2 : e.name = "TokenExpiredError"
            · simp [ht, hv, hq, hreq, h2]
            · simp [ht, hv, hq, hreq, h1, h2]
        | ok found =>
          cases found with
          | none => simp [ht, hv, hq, hreq]
          | some user =>
            by_cases ha : user.isActive = true
            · simp [ht, hv, hq, ha, User.select]
            · simp [ht, hv, hq, ha, User.select, hreq]
    · simp [ht, hreq]

/-- Witness for `optionalAuth_agrees_with_authenticateToken`: on the sample request
both stages attach the sample principal. -/
theorem optionalAuth_agrees_with_authenticateToken_witness :
    (bearerReq aliceAccess1000).user = none ∧
    (optionalAuth (worldAt 1500) { users := [alice []] } (bearerReq aliceAccess1000)).req.user
      = some (alice []).select :=
  ⟨rfl,
   ((optionalAuth_agrees_with_authenticateToken (worldAt 1500) { users := [alice []] }
      (bearerReq aliceAccess1000) rfl).1 (alice []).select).2 ⟨by decide, by decide⟩⟩

/-! ## Deactivation -/

/-- C4: when `deleteAccount` answers 200 it has set the attached principal's record to
inactive and left its refresh tokens listed; and in every store in which that record
is inactive, whatever the clock, `authenticateToken` answers 401 to every access token
that verifies and names the principal; the refresh endpoint answers 401, store
unchanged, to every refresh token that names the principal if it verifies (listed or
not, expired or not); and login answers 401, store unchanged, to every login with a
non-empty password whose email resolves to the principal (database operations
completing). -/
theorem deactivation_immediacy (w : World) (db : Db) (req : Req)
    (h200 : (deleteAccount w db req).2.status = 200) :
    ∃ principal before after,
      req.user = some principal ∧
      db.users.find? (fun u => u._id == principal._id) = some before ∧
      (deleteAccount w db req).1.users.find? (fun u => u._id == principal._id) = some after ∧
      after.isActive = false ∧
      after.refreshTokens = before.refreshTokens ∧
      ∀ (later : Db) (w2 : World) (p : User),
        (∀ k, w2.dbFault k = none) →
        later.users.find? (fun u => u._id == principal._id) = some p →
        p.isActive = false →
        (∀ r token decoded,
          headerToken r.authorization = some token →
          verifyAccessToken w2 token = .ok decoded →
          decoded.userId = principal._id →
          authenticateToken w2 later r
            = { req := r, sent := [jsonMessage 401 "User not found or inactive"],
                nextCalls := 0 }) ∧
        (∀ r token,
          r.refreshToken = some token →
          (∀ decoded, verifyRefreshToken w2 token = .ok decoded →
            decoded.userId = principal._id) →
          (refreshToken w2 later r).1 = later ∧ (refreshToken w2 later r).2.status = 401) ∧
        (∀ r email password,
          r.email = some email → email ≠ "" →
          r.password = some password → password ≠ "" →
          later.users.find? (fun u => u.email == email) = some p →
          login w2 later r = (later, jsonMessage 401 "Invalid credentials")) := by
  unfold deleteAccount deleteAccountTry at h200
  cases hu : req.user with
  | none =>
    rw [hu] at h200
    simp [internalError] at h200
  | some principal =>
    rw [hu] at h200
    cases hfault : w.dbFault 0 with
    | some e =>
      simp [User.findByIdAndUpdate_isActive_false, hfault, internalError] at h200
    | none =>
      have hupd := find_updateFirst principal._id principal._id
        (fun u => { u with isActive := false }) (fun _ => rfl) db.users
      cases hb : db.users.find? (fun u => u._id == principal._id) with
      | none =>
        rw [hb] at hupd
        simp [User.findByIdAndUpdate_isActive_false, hfault, hupd, jsonMessage] at h200
      | some before =>
        rw [hb] at hupd
        refine ⟨principal, before, { before with isActive := false }, rfl, hb, ?_, rfl, rfl, ?_⟩
        · simp only [deleteAccount, deleteAccountTry, hu, User.findByIdAndUpdate_isActive_false,
            hfault, hupd, Option.map_some']
          simp
        · intro later w2 p hdb hp hpa
          refine ⟨?_, ?_, ?_⟩
          · intro r token decoded hh hv hid
            have ht := truthy_of_verify hv
            simp [authenticateToken, authenticateTokenTry, hh, ht, hv, User.findById, hdb,
              hid, hp, User.select, hpa]
          · intro r token hh hid
            by_cases ht : token.truthy = true
            · cases hv : verifyRefreshToken w2 token with
              | error e =>
                have hc : (e.name == "JsonWebTokenError" || e.name == "TokenExpiredError")
                    = true := by
                  rcases verify_error_name hv with h | h <;> simp [h]
                simp [refreshToken, refreshTokenTry, hh, ht, hv, hc, jsonMessage]
              | ok decoded =>
                simp [refreshToken, refreshTokenTry, hh, ht, hv, User.findById, hdb,
                  hid decoded hv, hp, hpa, jsonMessage]
            · simp [refreshToken, refreshTokenTry, hh, ht, jsonMessage]
          · intro r email password he hne hpw hnp hfind
            simp [login, loginTry, he, hpw, hne, hnp, User.findOne, hdb, hfind, hpa]

/-- Witness for `deactivation_immediacy`: the sample principal deletes the account at
second 1500; the access token issued at second 1000, still unexpired, is answered 401
on the resulting store. -/
theorem deactivation_immediacy_witness :
    (deleteAccount (worldAt 1500)
        { users := [alice [{ token := aliceRefresh1000, createdAt := 1000 }]] }
        { emptyReq with user := some (alice []).select }).2.status = 200 ∧
    (authenticateToken (worldAt 1600)
        (deleteAccount (worldAt 1500)
          { users := [alice [{ token := aliceRefresh1000, createdAt := 1000 }]] }
          { emptyReq with user := some (alice []).select }).1
        (bearerReq aliceAccess1000)).sent.map (fun r => r.status) = [401] ∧
    (refreshToken (worldAt 1600)
        (deleteAccount (worldAt 1500)
          { users := [alice [{ token := aliceRefresh1000, createdAt := 1000 }]] }
          { emptyReq with user := some (alice []).select }).1
        (cookieReq aliceRefresh1000)).2.status = 401 ∧
    (login (worldAt 1600)
        (deleteAccount (worldAt 1500)
          { users := [alice [{ token := aliceRefresh1000, createdAt := 1000 }]] }
          { emptyReq with user := some (alice []).select }).1
        (loginReq "a@x.com" "secret1")).2.status = 401 := by
  obtain ⟨principal, before, after, h1, _, h3, h4, _, h6⟩ :=
    deactivation_immediacy (worldAt 1500)
      { users := [alice [{ token := aliceRefresh1000, createdAt := 1000 }]] }
      { emptyReq with user := some (alice []).select } (by decide)
  have hp : principal = (alice []).select := by
    have : some (alice []).select = some principal := h1
    exact (Option.some.inj this).symm
  subst hp
  have h := h6 _ (worldAt 1600) after (fun _ => rfl) h3 h4
  refine ⟨by decide, ?_, ?_, ?_⟩
  · rw [h.1 (bearerReq aliceAccess1000) aliceAccess1000
      { userId := 1, email := "a@x.com", role := "client", iat := 1000, exp := 1900 }
      rfl (by rfl) rfl]
    rfl
  · exact (h.2.1 (cookieReq aliceRefresh1000) aliceRefresh1000 rfl (by
      intro decoded hv
      have hd : decoded
          = { userId := 1, email := "a@x.com", role := "client", iat := 1000, exp := 605800 } := by
        have hv2 : verifyRefreshToken (worldAt 1600) aliceRefresh1000
            = .ok { userId := 1, email := "a@x.com", role := "client", iat := 1000,
                    exp := 605800 } := by rfl
        rw [hv2] at hv
        cases hv
        rfl
      rw [hd]
      rfl)).2
  · rw [h.2.2 (loginReq "a@x.com" "secret1") "a@x.com" "secret1" rfl (by decide) rfl (by decide)
      (by
        have : after = { alice [{ token := aliceRefresh1000, createdAt := 1000 }] with
            isActive := false } := by
          have h3b : some after = some { alice [{ token := aliceRefresh1000, createdAt := 1000 }] with
            isActive := false } := by
            rw [← h3]
            decide
          exact Option.some.inj h3b
        rw [this]
        decide)]
    rfl

/-! ## The client hooks -/

theorem requestInterceptor_retry (t : Option String) (config : Config) :
    (requestInterceptor t config)._retry = config._retry := by
  unfold requestInterceptor
  split <;> rfl

theorem requestInterceptor_isRefreshCall (t : Option String) (config : Config) :
    isRefreshCall (requestInterceptor t config) = isRefreshCall config := by
  unfold requestInterceptor
  split <;> rfl

/-- Against a server that answers 401 throughout, a refresh call with a budget of `n`
nested requests is still pending when the budget is used up, and has by then put `n`
refresh calls on the network. -/
theorem refresh_call_chain (n : Nat) (c : Client) :
    (axios always401 n c refreshConfig).2 = none ∧
    (axios always401 n c refreshConfig).1.log.countP isRefreshCall
      = c.log.countP isRefreshCall + n := by
  induction n generalizing c with
  | zero => simp [axios]
  | succ n ih =>
    have h := ih (rerender { c with log := c.log ++ [requestInterceptor c.hookToken refreshConfig] })
    have hr : (requestInterceptor c.hookToken refreshConfig)._retry = false := by
      rw [requestInterceptor_retry]
      rfl
    have hc : isRefreshCall (requestInterceptor c.hookToken refreshConfig) = true := by
      rw [requestInterceptor_isRefreshCall]
      rfl
    obtain ⟨h1, h2⟩ := h
    rcases hres : axios always401 n
      (rerender { c with log := c.log ++ [requestInterceptor c.hookToken refreshConfig] })
      refreshConfig with ⟨c1, res⟩
    rw [hres] at h1 h2
    simp only at h1 h2
    subst h1
    simp only [axios, always401, responseInterceptor, hr, hres]
    simp only [rerender, List.countP_append, List.countP_cons, List.countP_nil, hc] at h2
    simp [h2]
    omega

/-- C8 (evaluation at the failing input): the client holds the rejected token `old`,
the request `GET /users` has been answered 401 and the server answers 401 to every
request, refresh calls included. For every budget `n` of nested requests the hook has
put `n` refresh calls on the network and is still pending: the chain of refresh calls
has no bound. -/
theorem responseInterceptor_refresh_unbounded (n : Nat) :
    (responseInterceptor (axios always401 n) staleClient (rejected401 getUsers)).2 = none ∧
    (responseInterceptor (axios always401 n) staleClient (rejected401 getUsers)).1.log.countP
      isRefreshCall = n := by
  have h := refresh_call_chain n staleClient
  obtain ⟨h1, h2⟩ := h
  rcases hres : axios always401 n staleClient refreshConfig with ⟨c1, res⟩
  rw [hres] at h1 h2
  simp only at h1 h2
  subst h1
  simp only [responseInterceptor, rejected401, getUsers, hres]
  simpa [staleClient] using h2

/-- C9 (evaluation at the failing input): the client holds the rejected token `old`,
`GET /users` is answered 401 and the refresh call succeeds with the access token
`new`. The three requests that leave the client are the original one, the refresh
call, and the re-issued request, which carries `Bearer old`, not `Bearer new`; the
server, which would accept `Bearer new`, answers it 401 and the caller gets that
error although the client now holds `new`. -/
theorem retry_carries_stale_token :
    (axios renewingServer 3 staleClient getUsers).1.log
      = [getUsers,
         { refreshConfig with Authorization := some "Bearer old" },
         { getUsers with Authorization := some "Bearer old", _retry := true }] ∧
    (axios renewingServer 3 staleClient getUsers).2
      = some (.rejected (rejected401
          { getUsers with Authorization := some "Bearer old", _retry := true })) ∧
    (axios renewingServer 3 staleClient getUsers).1.accessToken = some "new" := by
  refine ⟨?_, ?_, ?_⟩ <;> decide

theorem axios_fulfilled (srv : Server) (fuel : Nat) (c : Client) (config : Config)
    (r : AxiosResponse)
    (h : srv c.log (requestInterceptor c.hookToken config) = some r)
    (h1 : 200 ≤ r.status) (h2 : r.status < 300) :
    axios srv (fuel + 1) c config
      = (rerender { c with log := c.log ++ [requestInterceptor c.hookToken config] },
         some (.fulfilled r)) := by
  simp [axios, h, h1, h2]

theorem axios_rejected_other (srv : Server) (fuel : Nat) (c : Client) (config : Config)
    (h : match srv c.log (requestInterceptor c.hookToken config) with
      | none => True
      | some r => ¬ (200 ≤ r.status ∧ r.status < 300) ∧ r.status ≠ 401) :
    axios srv (fuel + 1) c config
      = (rerender { c with log := c.log ++ [requestInterceptor c.hookToken config] },
         some (.rejected
            { config := requestInterceptor c.hookToken config
              response := srv c.log (requestInterceptor c.hookToken config) })) := by
  cases hs : srv c.log (requestInterceptor c.hookToken config) with
  | none => simp [axios, hs, responseInterceptor]
  | some r =>
    rw [hs] at h
    obtain ⟨h1, h2⟩ := h
    simp only [axios, hs, h1, if_false, responseInterceptor, Option.map_some']
    simp [h2]

theorem axios_rejected_retried (srv : Server) (fuel : Nat) (c : Client) (config : Config)
    (r : AxiosResponse)
    (h : srv c.log (requestInterceptor c.hookToken config) = some r)
    (h1 : r.status = 401) (h2 : config._retry = true) :
    axios srv (fuel + 1) c config
      = (rerender { c with log := c.log ++ [requestInterceptor c.hookToken config] },
         some (.rejected
            { config := requestInterceptor c.hookToken config, response := some r })) := by
  have hr : (requestInterceptor c.hookToken config)._retry = true := by
    rw [requestInterceptor_retry]
    exact h2
  simp [axios, h, h1, responseInterceptor, hr]

theorem axios_settles (srv : Server) (fuel : Nat) (c : Client) (config : Config)
    (h : match srv c.log (requestInterceptor c.hookToken config) with
      | none => True
      | some r => r.status ≠ 401) :
    ∃ res, axios srv (fuel + 1) c config
      = (rerender { c with log := c.log ++ [requestInterceptor c.hookToken config] },
         some res) := by
  cases hs : srv c.log (requestInterceptor c.hookToken config) with
  | none =>
    exact ⟨_, axios_rejected_other srv fuel c config (by rw [hs]; trivial)⟩
  | some r =>
    rw [hs] at h
    by_cases h2 : 200 ≤ r.status ∧ r.status < 300
    · exact ⟨_, axios_fulfilled srv fuel c config r hs h2.1 h2.2⟩
    · exact ⟨_, axios_rejected_other srv fuel c config (by rw [hs]; exact ⟨h2, h⟩)⟩

/-- C10 (counterexample): the client holds `old`, `GET /users` is answered 401, the
refresh call succeeds with `new`, and the re-issued request, marked `_retry`, is
answered 401 again. The hook rejects with that error and the client is not anonymous:
it holds `new`, the persisted slot holds `new`, and the user is still set. -/
theorem retried_401_leaves_session :
    (axios refusingServer 3 staleClient getUsers).1.log.map (fun config => (config.url, config._retry))
      = [("/users", false), ("/auth/refresh-token", false), ("/users", true)] ∧
    (axios refusingServer 3 staleClient getUsers).2
      = some (.rejected (rejected401
          { getUsers with Authorization := some "Bearer old", _retry := true })) ∧
    (axios refusingServer 3 staleClient getUsers).1.accessToken = some "new" ∧
    (axios refusingServer 3 staleClient getUsers).1.storage = some "new" ∧
    (axios refusingServer 3 staleClient getUsers).1.user = some (alice []).select ∧
    ¬ ((axios refusingServer 3 staleClient getUsers).1.accessToken = none ∧
       (axios refusingServer 3 staleClient getUsers).1.storage = none ∧
       (axios refusingServer 3 staleClient getUsers).1.user = none) := by
  refine ⟨?_, ?_, ?_, ?_, ?_, ?_⟩ <;> decide

/-- C10 (amended): for a 401 answer to a request not yet marked retried, and any
positive budget: (1) when the refresh call fails with no response or with a status
that is neither 2xx nor 401, and the logout call that follows is answered with
anything but 401, the hook rejects with the refresh error and the client ends
anonymous (user null, held token null, persisted slot removed); (2) when the refresh
call succeeds and the re-issued request is answered 401 again, the hook rejects with
that error and no teardown takes place: held token and persisted slot are those the
refresh set, and the user is unchanged. -/
theorem responseInterceptor_teardown (srv : Server) (fuel : Nat) (c : Client)
    (error : AxiosError)
    (h401 : error.response.map (fun r => r.status) = some 401)
    (hretry : error.config._retry = false) :
    ((match srv c.log (requestInterceptor c.hookToken refreshConfig) with
        | none => True
        | some r => ¬ (200 ≤ r.status ∧ r.status < 300) ∧ r.status ≠ 401) →
      (match srv (c.log ++ [requestInterceptor c.hookToken refreshConfig])
          (requestInterceptor c.accessToken logoutConfig) with
        | none => True
        | some r => r.status ≠ 401) →
      (responseInterceptor (axios srv (fuel + 1)) c error).2
        = some (.rejected
            { config := requestInterceptor c.hookToken refreshConfig
              response := srv c.log (requestInterceptor c.hookToken refreshConfig) }) ∧
      (responseInterceptor (axios srv (fuel + 1)) c error).1.user = none ∧
      (responseInterceptor (axios srv (fuel + 1)) c error).1.accessToken = none ∧
      (responseInterceptor (axios srv (fuel + 1)) c error).1.storage = none) ∧
    (∀ r r2,
      srv c.log (requestInterceptor c.hookToken refreshConfig) = some r →
      200 ≤ r.status → r.status < 300 →
      srv (c.log ++ [requestInterceptor c.hookToken refreshConfig])
          (requestInterceptor c.accessToken
            { error.config with
                _retry := true, Authorization := some ("Bearer " ++ text r.accessToken) })
        = some r2 →
      r2.status = 401 →
      (responseInterceptor (axios srv (fuel + 1)) c error).2
        = some (.rejected
            { config := requestInterceptor c.accessToken
                { error.config with
                    _retry := true, Authorization := some ("Bearer " ++ text r.accessToken) }
              response := some r2 }) ∧
      (responseInterceptor (axios srv (fuel + 1)) c error).1.user = c.user ∧
      (responseInterceptor (axios srv (fuel + 1)) c error).1.accessToken = r.accessToken ∧
      (responseInterceptor (axios srv (fuel + 1)) c error).1.storage
        = some (text r.accessToken)) := by
  have hcond : (error.response.map (fun r => r.status) == some 401
      && !error.config._retry) = true := by
    simp [h401, hretry]
  refine ⟨?_, ?_⟩
  · intro hrefresh hlogout
    have ha := axios_rejected_other srv fuel c refreshConfig hrefresh
    obtain ⟨res, hl⟩ := axios_settles srv fuel
      (rerender { c with log := c.log ++ [requestInterceptor c.hookToken refreshConfig] })
      logoutConfig hlogout
    simp only [responseInterceptor, hcond, if_true, ha, logout, hl]
    simp
  · intro r r2 hr h1 h2 hr2 h401b
    have ha := axios_fulfilled srv fuel c refreshConfig r hr h1 h2
    have hb := axios_rejected_retried srv fuel
      { rerender { c with log := c.log ++ [requestInterceptor c.hookToken refreshConfig] } with
          accessToken := r.accessToken, storage := some (text r.accessToken) }
      { error.config with
          _retry := true, Authorization := some ("Bearer " ++ text r.accessToken) }
      r2 hr2 h401b rfl
    simp only [responseInterceptor, hcond, if_true, ha, hb]
    simp [rerender]

/-- Witness for `responseInterceptor_teardown`: with a refresh endpoint that fails with
500 the client ends anonymous; with a refresh that succeeds and a re-issued request
answered 401 the client keeps the session the refresh set. -/
theorem responseInterceptor_teardown_witness :
    (rejected401 getUsers).response.map (fun r => r.status) = some 401 ∧
    (rejected401 getUsers).config._retry = false ∧
    ((responseInterceptor (axios brokenRefreshServer 1) staleClient (rejected401 getUsers)).1.user
        = none ∧
      (responseInterceptor (axios brokenRefreshServer 1) staleClient
        (rejected401 getUsers)).1.accessToken = none ∧
      (responseInterceptor (axios brokenRefreshServer 1) staleClient
        (rejected401 getUsers)).1.storage = none) ∧
    ((responseInterceptor (axios refusingServer 1) staleClient (rejected401 getUsers)).1.user
        = staleClient.user ∧
      (responseInterceptor (axios refusingServer 1) staleClient
        (rejected401 getUsers)).1.accessToken = some "new" ∧
      (responseInterceptor (axios refusingServer 1) staleClient
        (rejected401 getUsers)).1.storage = some "new") :=
  ⟨rfl, rfl,
   ((responseInterceptor_teardown brokenRefreshServer 0 staleClient (rejected401 getUsers)
      rfl rfl).1
        (show ¬ (200 ≤ 500 ∧ 500 < 300) ∧ 500 ≠ 401 from by decide)
        (show 200 ≠ 401 from by decide)).2,
   ((responseInterceptor_teardown refusingServer 0 staleClient (rejected401 getUsers)
      rfl rfl).2 { status := 200, accessToken := some "new", user := none }
        { status := 401, accessToken := none, user := none }
        (by decide) (by decide) (by decide) (by decide) rfl).2⟩

/-! ## Logout -/

theorem find_id_eq {db : Db} {id : Nat} {p : User}
    (h : db.users.find? (fun u => u._id == id) = some p) : p._id = id := by
  have := List.find?_some h
  simpa using this

theorem authenticateToken_of_valid (w : World) (db : Db) (req : Req) (token : Token)
    (decoded : Decoded) (p : User)
    (h0 : w.dbFault 0 = none)
    (hh : headerToken req.authorization = some token)
    (hv : verifyAccessToken w token = .ok decoded)
    (hp : db.users.find? (fun u => u._id == decoded.userId) = some p)
    (ha : p.isActive = true) :
    authenticateToken w db req
      = { req := { req with user := some p.select }, sent := [], nextCalls := 1 } := by
  have ht := truthy_of_verify hv
  simp [authenticateToken, authenticateTokenTry, hh, ht, hv, User.findById, h0, hp, ha,
    User.select]

theorem refreshToken_unlisted (w : World) (db : Db) (r : Req) (t : Token) (p : User)
    (hdb : ∀ k, w.dbFault k = none)
    (hc : r.refreshToken = some t)
    (hname : ∀ d, verifyRefreshToken w t = .ok d → d.userId = p._id)
    (hp : db.users.find? (fun u => u._id == p._id) = some p)
    (hun : ∀ rt ∈ p.refreshTokens, rt.token ≠ t) :
    refreshToken w db r = (db, (refreshToken w db r).2) ∧
    (refreshToken w db r).2.status = 401 := by
  by_cases ht : t.truthy = true
  · cases hv : verifyRefreshToken w t with
    | error e =>
      have hcnd : (e.name == "JsonWebTokenError" || e.name == "TokenExpiredError") = true := by
        rcases verify_error_name hv with h | h <;> simp [h]
      simp [refreshToken, refreshTokenTry, hc, ht, hv, hcnd, jsonMessage]
    | ok d =>
      have hany : (p.refreshTokens.any (fun rt => rt.token == t)) = false := by
        rw [List.any_eq_false]
        intro rt hrt
        simpa using hun rt hrt
      by_cases ha : p.isActive = true
      · simp [refreshToken, refreshTokenTry, hc, ht, hv, User.findById, hdb, hname d hv, hp,
          ha, hany, jsonMessage]
      · simp [refreshToken, refreshTokenTry, hc, ht, hv, User.findById, hdb, hname d hv, hp,
          ha, jsonMessage]
  · simp [refreshToken, refreshTokenTry, hc, ht, jsonMessage]

/-- C11: an authenticated principal `p` (valid access token, record active) calls
`POST /auth/logout` with the non-empty token `t` in the `refreshToken` cookie, every
database operation completing. The route sends the single answer 200 that clears the
cookie; in the store it leaves, `p`'s record lists no entry with token `t`; and on
that store a refresh call presenting `t` (naming `p` if it verifies) is answered 401,
whatever the clock. The removal is the SessionStore operation on the attached
principal's id, so it does not need the excluded `refreshTokens` field. -/
theorem logout_revokes (w : World) (db : Db) (req : Req) (token t : Token)
    (decoded : Decoded) (p : User)
    (hdb : ∀ k, w.dbFault k = none)
    (hh : headerToken req.authorization = some token)
    (hv : verifyAccessToken w token = .ok decoded)
    (hp : db.users.find? (fun u => u._id == decoded.userId) = some p)
    (ha : p.isActive = true)
    (hc : req.refreshToken = some t)
    (ht : t.truthy = true) :
    (postLogout w db req).2
      = [{ status := 200
           body := { message := "Logged out successfully", accessToken := none
                     user := none, error := none }
           cookie := some .clear }] ∧
    (∃ p1, (postLogout w db req).1.users.find? (fun u => u._id == p._id) = some p1 ∧
      ∀ rt ∈ p1.refreshTokens, rt.token ≠ t) ∧
    (∀ (w2 : World) (r : Req),
      (∀ k, w2.dbFault k = none) →
      r.refreshToken = some t →
      (∀ d, verifyRefreshToken w2 t = .ok d → d.userId = p._id) →
      (refreshToken w2 (postLogout w db req).1 r).2.status = 401) := by
  have hid := find_id_eq hp
  have hp2 : db.users.find? (fun u => u._id == p._id) = some p := by rw [hid]; exact hp
  have hauth := authenticateToken_of_valid w db req token decoded p (hdb 0) hh hv hp ha
  have hupd := find_updateFirst p._id p._id
    (fun u => { u with refreshTokens := u.refreshTokens.filter (fun rt => rt.token != t) })
    (fun _ => rfl) db.users
  rw [hp2] at hupd
  simp only [Option.map_some', if_true] at hupd
  have hpost : postLogout w db req
      = ({ users := updateFirst p._id
            (fun u => { u with refreshTokens := u.refreshTokens.filter (fun rt => rt.token != t) })
            db.users },
         [{ status := 200
            body := { message := "Logged out successfully", accessToken := none
                      user := none, error := none }
            cookie := some .clear }]) := by
    simp [postLogout, route, hauth, authController.logout, authController.logoutTry, hc, ht,
      removeRefreshToken, hdb, User.select]
  have hun : ∀ rt ∈ p.refreshTokens.filter (fun rt => rt.token != t), rt.token ≠ t := by
    intro rt hrt
    simp only [List.mem_filter] at hrt
    simpa using hrt.2
  rw [hpost]
  refine ⟨rfl, ⟨_, hupd, hun⟩, ?_⟩
  intro w2 r hdb2 hc2 hname
  exact (refreshToken_unlisted w2 _ r t
    { p with refreshTokens := p.refreshTokens.filter (fun rt => rt.token != t) }
    hdb2 hc2 hname hupd hun).2

/-- Witness for `logout_revokes`: the sample principal logs out at second 1500. -/
theorem logout_revokes_witness :
    (∀ k, (worldAt 1500).dbFault k = none) ∧
    (postLogout (worldAt 1500) aliceDb aliceLogoutReq).2.map (fun r => r.status) = [200] ∧
    (refreshToken (worldAt 1600) (postLogout (worldAt 1500) aliceDb aliceLogoutReq).1
      (cookieReq aliceRefresh1000)).2.status = 401 := by
  have h := logout_revokes (worldAt 1500) aliceDb aliceLogoutReq aliceAccess1000
    aliceRefresh1000
    { userId := 1, email := "a@x.com", role := "client", iat := 1000, exp := 1900 }
    (alice [{ token := aliceRefresh1000, createdAt := 1000 }])
    (fun _ => rfl) rfl (by rfl) (by decide) rfl rfl rfl
  refine ⟨fun _ => rfl, ?_, ?_⟩
  · rw [h.1]
    rfl
  · apply h.2.2 (worldAt 1600) (cookieReq aliceRefresh1000) (fun _ => rfl) rfl
    intro d hd
    have hv2 : verifyRefreshToken (worldAt 1600) aliceRefresh1000
        = .ok { userId := 1, email := "a@x.com", role := "client", iat := 1000,
                exp := 605800 } := by rfl
    rw [hv2] at hd
    cases hd
    rfl

/-! ## Uniform answers -/

theorem refreshToken_rejected_answer (w : World) (db : Db) (r : Req) (t : Token)
    (hdb : ∀ k, w.dbFault k = none)
    (hc : r.refreshToken = some t) (ht : t.truthy = true)
    (hrej : RefreshRejected w db t) :
    (refreshToken w db r).2 = jsonMessage 401 "Invalid refresh token" := by
  rcases hrej with ⟨e, hv⟩ | ⟨d, hv, hcase⟩
  · have hcnd : (e.name == "JsonWebTokenError" || e.name == "TokenExpiredError") = true := by
      rcases verify_error_name hv with h | h <;> simp [h]
    simp [refreshToken, refreshTokenTry, hc, ht, hv, hcnd]
  · rcases hcase with hnone | ⟨u, hu, hbad⟩
    · simp [refreshToken, refreshTokenTry, hc, ht, hv, User.findById, hdb, hnone]
    · rcases hbad with hina | hun
      · simp [refreshToken, refreshTokenTry, hc, ht, hv, User.findById, hdb, hu, hina]
      · have hany : (u.refreshTokens.any (fun rt => rt.token == t)) = false := by
          rw [List.any_eq_false]
          intro rt hrt
          simpa using hun rt hrt
        by_cases ha : u.isActive = true
        · simp [refreshToken, refreshTokenTry, hc, ht, hv, User.findById, hdb, hu, ha, hany]
        · simp [refreshToken, refreshTokenTry, hc, ht, hv, User.findById, hdb, hu, ha]

/-- C12: two refresh requests, each carrying a non-empty cookie token that is rejected
for one of the listed reasons (expired, invalid signature, not listed by the
principal, principal missing or inactive), in any two worlds and stores with the
database answering, get the same response: status 401 with the body
`Invalid refresh token` and no cookie. -/
theorem refresh_rejections_uniform (w1 w2 : World) (db1 db2 : Db) (r1 r2 : Req)
    (t1 t2 : Token)
    (hdb1 : ∀ k, w1.dbFault k = none) (hdb2 : ∀ k, w2.dbFault k = none)
    (hc1 : r1.refreshToken = some t1) (ht1 : t1.truthy = true)
    (hc2 : r2.refreshToken = some t2) (ht2 : t2.truthy = true)
    (hrej1 : RefreshRejected w1 db1 t1) (hrej2 : RefreshRejected w2 db2 t2) :
    (refreshToken w1 db1 r1).2 = (refreshToken w2 db2 r2).2 ∧
    (refreshToken w1 db1 r1).2.status = 401 ∧
    (refreshToken w1 db1 r1).2.body
      = { message := "Invalid refresh token", accessToken := none, user := none
          error := none } := by
  rw [refreshToken_rejected_answer w1 db1 r1 t1 hdb1 hc1 ht1 hrej1,
    refreshToken_rejected_answer w2 db2 r2 t2 hdb2 hc2 ht2 hrej2]
  exact ⟨rfl, rfl, rfl⟩

/-- Witness for `refresh_rejections_uniform`: at second 700000 the sample token is
expired, and a forged token has an invalid signature; both get the same answer. -/
theorem refresh_rejections_uniform_witness :
    (refreshToken (worldAt 700000) aliceDb (cookieReq aliceRefresh1000)).2
      = (refreshToken (worldAt 1500) aliceDb
          (cookieReq (.signed "guess" alicePayload 1000 605800))).2 :=
  (refresh_rejections_uniform (worldAt 700000) (worldAt 1500) aliceDb aliceDb
    (cookieReq aliceRefresh1000) (cookieReq (.signed "guess" alicePayload 1000 605800))
    aliceRefresh1000 (.signed "guess" alicePayload 1000 605800)
    (fun _ => rfl) (fun _ => rfl) rfl rfl rfl rfl
    (Or.inl ⟨{ name := "TokenExpiredError", message := "jwt expired" }, by rfl⟩)
    (Or.inl ⟨{ name := "JsonWebTokenError", message := "invalid signature" }, by rfl⟩)).1

/-- C13 (counterexample): at second 5000 the sample access token (expiry 1900) is
expired and the text `garbage` is malformed; `authenticateToken` answers both 401 but
with different bodies, `Token expired` and `Invalid token`. -/
theorem expired_and_invalid_differ :
    (authenticateToken (worldAt 5000) aliceDb (bearerReq aliceAccess1000)).sent
      = [jsonMessage 401 "Token expired"] ∧
    (authenticateToken (worldAt 5000) aliceDb (bearerReq (.raw "garbage"))).sent
      = [jsonMessage 401 "Invalid token"] ∧
    (jsonMessage 401 "Token expired").body ≠ (jsonMessage 401 "Invalid token").body := by
  refine ⟨?_, ?_, ?_⟩ <;> decide

/-- C13 (amended): for a request carrying an expired access token and a request
carrying a non-empty, structurally invalid access token, `authenticateToken` answers
both with status 401 and never calls `next`, but the bodies differ: `Token expired`
for the first and `Invalid token` for the second. -/
theorem authenticateToken_expired_vs_invalid (w : World) (db : Db) (r1 r2 : Req)
    (t1 t2 : Token) (e1 e2 : JsError)
    (hh1 : headerToken r1.authorization = some t1)
    (hv1 : verifyAccessToken w t1 = .error e1) (hn1 : e1.name = "TokenExpiredError")
    (hh2 : headerToken r2.authorization = some t2) (ht2 : t2.truthy = true)
    (hv2 : verifyAccessToken w t2 = .error e2) (hn2 : e2.name = "JsonWebTokenError") :
    authenticateToken w db r1
      = { req := r1, sent := [jsonMessage 401 "Token expired"], nextCalls := 0 } ∧
    authenticateToken w db r2
      = { req := r2, sent := [jsonMessage 401 "Invalid token"], nextCalls := 0 } ∧
    (jsonMessage 401 "Token expired").status = (jsonMessage 401 "Invalid token").status ∧
    (jsonMessage 401 "Token expired").body ≠ (jsonMessage 401 "Invalid token").body := by
  have ht1 : t1.truthy = true := by
    cases t1 with
    | signed k p iat exp => rfl
    | raw text =>
      simp only [verifyAccessToken, jwt.verify] at hv1
      cases hv1
      simp at hn1
  refine ⟨?_, ?_, rfl, by decide⟩
  · simp [authenticateToken, authenticateTokenTry, hh1, ht1, hv1, hn1]
  · simp [authenticateToken, authenticateTokenTry, hh2, ht2, hv2, hn2]

/-- Witness for `authenticateToken_expired_vs_invalid`, on the two requests of the
counterexample. -/
theorem authenticateToken_expired_vs_invalid_witness :
    (authenticateToken (worldAt 5000) aliceDb (bearerReq aliceAccess1000)).sent
      ≠ (authenticateToken (worldAt 5000) aliceDb (bearerReq (.raw "garbage"))).sent := by
  have h := authenticateToken_expired_vs_invalid (worldAt 5000) aliceDb
    (bearerReq aliceAccess1000) (bearerReq (.raw "garbage")) aliceAccess1000 (.raw "garbage")
    { name := "TokenExpiredError", message := "jwt expired" }
    { name := "JsonWebTokenError", message := "jwt malformed" }
    rfl (by rfl) rfl rfl rfl (by rfl) rfl
  rw [h.1, h.2.1]
  decide

/-! ## The bearer header -/

/-- C14 (counterexample): the header `Basic <token>` with the sample principal's valid
access token is not treated as carrying no token: `authenticateToken` verifies the
token, attaches the principal and calls `next`. -/
theorem other_scheme_accepted :
    authenticateToken (worldAt 1500) aliceDb
        { emptyReq with authorization := some [.raw "Basic", aliceAccess1000] }
      = { req := { emptyReq with
                    authorization := some [.raw "Basic", aliceAccess1000]
                    user := some (alice []).select }
          sent := []
          nextCalls := 1 } := by
  decide

/-- C14 (amended): `authenticateToken` takes as token the second space-separated piece
of the `Authorization` header, whatever the first piece is. When the header is absent
or has no second piece or an empty one, the request is answered 401
`Access token required` in every world and store (nothing is verified or looked up).
When there is a second piece, the stage sends, proceeds and attaches exactly as it
does for the header `Bearer` followed by that piece. -/
theorem authenticateToken_header_form (w : World) (db : Db) (req : Req) :
    ((headerToken req.authorization = none ∨ headerToken req.authorization = some (.raw "")) →
      authenticateToken w db req
        = { req := req, sent := [jsonMessage 401 "Access token required"], nextCalls := 0 }) ∧
    (∀ scheme token rest, req.authorization = some (scheme :: token :: rest) →
      (authenticateToken w db req).sent
        = (authenticateToken w db
            { req with authorization := some [.raw "Bearer", token] }).sent ∧
      (authenticateToken w db req).nextCalls
        = (authenticateToken w db
            { req with authorization := some [.raw "Bearer", token] }).nextCalls ∧
      (authenticateToken w db req).req.user
        = (authenticateToken w db
            { req with authorization := some [.raw "Bearer", token] }).req.user) := by
  refine ⟨?_, ?_⟩
  · intro h
    rcases h with h | h
    · simp [authenticateToken, authenticateTokenTry, h]
    · simp [authenticateToken, authenticateTokenTry, h, Token.truthy]
  · intro scheme token rest h
    unfold authenticateToken authenticateTokenTry
    simp only [h, headerToken, List.getElem?_cons_succ, List.getElem?_cons_zero]
    by_cases ht : token.truthy = true
    · cases hv : verifyAccessToken w token with
      | error e =>
        by_cases h1 : e.name = "JsonWebTokenError"
        · simp [ht, hv, h1]
        · by_cases h2 : e.name = "TokenExpiredError"
          · simp [ht, hv, h2]
          · simp [ht, hv, h1, h2]
      | ok decoded =>
        cases hq : User.findById w 0 db decoded.userId with
        | error e =>
          by_cases h1 : e.name = "JsonWebTokenError"
          · simp [ht, hv, hq, h1]
          · by_cases h2 : e.name = "TokenExpiredError"
            · simp [ht, hv, hq, h2]
            · simp [ht, hv, hq, h1, h2]
        | ok found =>
          cases found with
          | none => simp [ht, hv, hq]
          | some u =>
            by_cases ha : u.isActive = true
            · simp [ht, hv, hq, ha, User.select]
            · simp [ht, hv, hq, ha, User.select]
    · simp [ht]

/-- Witness for `authenticateToken_header_form`: a bare token without a scheme word
leaves no second piece and is answered 401. -/
theorem authenticateToken_header_form_witness :
    (authenticateToken (worldAt 1500) aliceDb
        { emptyReq with authorization := some [aliceAccess1000] }).sent
      = [jsonMessage 401 "Access token required"] := by
  rw [(authenticateToken_header_form (worldAt 1500) aliceDb
    { emptyReq with authorization := some [aliceAccess1000] }).1 (Or.inl rfl)]

/-! ## The token codec -/

/-- C15: an access token generated at clock second `w.now` under an environment is
verified under the same environment at clock second `w2.now`: while fewer seconds
than the configured lifetime (default 900) have passed, the claims come back with the
same `userId`, `email` and `role`; once the lifetime has passed, verification fails
with `TokenExpiredError`. -/
theorem access_token_round_trip (w w2 : World) (payload : Payload)
    (henv : w2.env = w.env) :
    (w2.now < w.now + w.env.JWT_ACCESS_EXPIRE.getD 900 →
      verifyAccessToken w2 (generateAccessToken w payload)
        = .ok { userId := payload.userId, email := payload.email, role := payload.role
                iat := w.now, exp := w.now + w.env.JWT_ACCESS_EXPIRE.getD 900 }) ∧
    (w.now + w.env.JWT_ACCESS_EXPIRE.getD 900 ≤ w2.now →
      verifyAccessToken w2 (generateAccessToken w payload)
        = .error { name := "TokenExpiredError", message := "jwt expired" }) := by
  refine ⟨?_, ?_⟩
  · intro h
    have h2 : ¬ (w.now + w.env.JWT_ACCESS_EXPIRE.getD 900 ≤ w2.now) := by omega
    simp [verifyAccessToken, generateAccessToken, jwt.sign, jwt.verify, henv, h2]
  · intro h
    simp [verifyAccessToken, generateAccessToken, jwt.sign, jwt.verify, henv, h]

/-- Witness for `access_token_round_trip`: issued at second 1000 with the default
lifetime, the sample token verifies at second 1899 and is expired at second 1900. -/
theorem access_token_round_trip_witness :
    (worldAt 1899).env = (worldAt 1000).env ∧
    verifyAccessToken (worldAt 1899) (generateAccessToken (worldAt 1000) alicePayload)
      = .ok { userId := 1, email := "a@x.com", role := "client", iat := 1000, exp := 1900 } ∧
    verifyAccessToken (worldAt 1900) (generateAccessToken (worldAt 1000) alicePayload)
      = .error { name := "TokenExpiredError", message := "jwt expired" } :=
  ⟨rfl,
   (access_token_round_trip (worldAt 1000) (worldAt 1899) alicePayload rfl).1 (by decide),
   (access_token_round_trip (worldAt 1000) (worldAt 1900) alicePayload rfl).2 (by decide)⟩

/-- C16 (counterexample): in a configuration whose two secrets are the same text, a
token produced by `generateRefreshToken` is accepted by `verifyAccessToken`, and
`authenticateToken` lets a request through that presents it as bearer token. -/
theorem shared_secret_crosses_kinds :
    verifyAccessToken (sharedSecretWorldAt 1500)
        (generateRefreshToken (sharedSecretWorldAt 1000) alicePayload)
      = .ok { userId := 1, email := "a@x.com", role := "client", iat := 1000, exp := 605800 } ∧
    (authenticateToken (sharedSecretWorldAt 1500) aliceDb
        (bearerReq (generateRefreshToken (sharedSecretWorldAt 1000) alicePayload))).nextCalls
      = 1 := by
  refine ⟨by rfl, by decide⟩

/-- C16 (amended): in every configuration whose two secrets differ, for every claim
set and all clocks, a token produced by `generateRefreshToken` is rejected by
`verifyAccessToken` and a token produced by `generateAccessToken` is rejected by
`verifyRefreshToken`, both with `JsonWebTokenError`; so `authenticateToken` answers 401
to a refresh token presented as bearer token and the refresh endpoint answers 401 to
an access token presented in the cookie, and the store is left as it was. -/
theorem key_separation (w w2 : World) (db : Db) (payload : Payload)
    (henv : w2.env = w.env)
    (hsecrets : w.env.JWT_ACCESS_SECRET ≠ w.env.JWT_REFRESH_SECRET) :
    verifyAccessToken w2 (generateRefreshToken w payload)
      = .error { name := "JsonWebTokenError", message := "invalid signature" } ∧
    verifyRefreshToken w2 (generateAccessToken w payload)
      = .error { name := "JsonWebTokenError", message := "invalid signature" } ∧
    (∀ req, headerToken req.authorization = some (generateRefreshToken w payload) →
      authenticateToken w2 db req
        = { req := req, sent := [jsonMessage 401 "Invalid token"], nextCalls := 0 }) ∧
    (∀ req, req.refreshToken = some (generateAccessToken w payload) →
      refreshToken w2 db req = (db, jsonMessage 401 "Invalid refresh token")) := by
  have h1 : verifyAccessToken w2 (generateRefreshToken w payload)
      = .error { name := "JsonWebTokenError", message := "invalid signature" } := by
    have : ¬ w.env.JWT_REFRESH_SECRET = w.env.JWT_ACCESS_SECRET := fun h => hsecrets h.symm
    simp [verifyAccessToken, generateRefreshToken, jwt.sign, jwt.verify, henv, this]
  have h2 : verifyRefreshToken w2 (generateAccessToken w payload)
      = .error { name := "JsonWebTokenError", message := "invalid signature" } := by
    simp [verifyRefreshToken, generateAccessToken, jwt.sign, jwt.verify, henv, hsecrets]
  refine ⟨h1, h2, ?_, ?_⟩
  · intro req hh
    have ht : (generateRefreshToken w payload).truthy = true := rfl
    simp [authenticateToken, authenticateTokenTry, hh, ht, h1]
  · intro req hc
    have ht : (generateAccessToken w payload).truthy = true := rfl
    simp [refreshToken, refreshTokenTry, hc, ht, h2]

/-- Witness for `key_separation`: under the sample environment the sample principal's
refresh token is not an access token. -/
theorem key_separation_witness :
    (worldAt 1500).env = (worldAt 1000).env ∧
    (worldAt 1000).env.JWT_ACCESS_SECRET ≠ (worldAt 1000).env.JWT_REFRESH_SECRET ∧
    verifyAccessToken (worldAt 1500) (generateRefreshToken (worldAt 1000) alicePayload)
      = .error { name := "JsonWebTokenError", message := "invalid signature" } :=
  ⟨rfl, by decide,
   (key_separation (worldAt 1000) (worldAt 1500) aliceDb alicePayload rfl (by decide)).1⟩

/-! ## Rejection leaves the store alone -/

/-- C17: when the refresh endpoint answers 401 (database errors not bearing the names
of token errors), the store after the request is the store before it, the body
carries no access token and no cookie is set; in particular a request presenting an
expired token gets the answer `Invalid refresh token` and leaves the store, where the
token may still be listed, as it was. -/
theorem refresh_rejection_no_purge (w : World) (db : Db) (req : Req)
    (hfault : ∀ k e, w.dbFault k = some e →
      e.name ≠ "JsonWebTokenError" ∧ e.name ≠ "TokenExpiredError") :
    ((refreshToken w db req).2.status = 401 →
      (refreshToken w db req).1 = db ∧
      (refreshToken w db req).2.body.accessToken = none ∧
      (refreshToken w db req).2.cookie = none) ∧
    (∀ t e, req.refreshToken = some t →
      verifyRefreshToken w t = .error e → e.name = "TokenExpiredError" →
      refreshToken w db req = (db, jsonMessage 401 "Invalid refresh token")) := by
  refine ⟨?_, ?_⟩
  · unfold refreshToken refreshTokenTry
    cases hc : req.refreshToken with
    | none => simp [jsonMessage]
    | some token =>
      by_cases ht : token.truthy = true
      · cases hv : verifyRefreshToken w token with
        | error e =>
          have hcnd : (e.name == "JsonWebTokenError" || e.name == "TokenExpiredError")
              = true := by
            rcases verify_error_name hv with h | h <;> simp [h]
          simp [ht, hv, hcnd, jsonMessage]
        | ok decoded =>
          cases hf0 : w.dbFault 0 with
          | some e =>
            have hn := hfault 0 e hf0
            simp [ht, hv, User.findById, hf0, hn.1, hn.2, internalError]
          | none =>
            cases hf : db.users.find? (fun u => u._id == decoded.userId) with
            | none => simp [ht, hv, User.findById, hf0, hf, jsonMessage]
            | some user =>
              by_cases ha : user.isActive = true
              · by_cases hx : user.refreshTokens.any (fun rt => rt.token == token) = true
                · cases hf1 : w.dbFault 1 with
                  | some e =>
                    have hn := hfault 1 e hf1
                    simp [ht, hv, User.findById, hf0, hf, ha, hx, removeRefreshToken, hf1,
                      hn.1, hn.2, internalError]
                  | none =>
                    cases hf2 : w.dbFault 2 with
                    | some e =>
                      have hn := hfault 2 e hf2
                      simp [ht, hv, User.findById, hf0, hf, ha, hx, removeRefreshToken, hf1,
                        addRefreshToken, hf2, hn.1, hn.2, internalError]
                    | none =>
                      have hupd := find_updateFirst user._id user._id
                        (fun u => { u with refreshTokens :=
                          u.refreshTokens.filter (fun rt => rt.token != token) })
                        (fun _ => rfl) db.users
                      rw [find_id_eq hf, hf] at hupd
                      simp only [Option.map_some'] at hupd
                      rw [← find_id_eq hf] at hupd
                      simp [ht, hv, User.findById, hf0, hf, ha, hx, removeRefreshToken, hf1,
                        addRefreshToken, hf2, hupd]
                · simp [ht, hv, User.findById, hf0, hf, ha, hx, jsonMessage]
              · simp [ht, hv, User.findById, hf0, hf, ha, jsonMessage]
      · simp [ht, jsonMessage]
  · intro t e hc hv hn
    have ht : t.truthy = true := by
      cases t with
      | signed k p iat exp => rfl
      | raw text =>
        simp only [verifyRefreshToken, jwt.verify] at hv
        cases hv
        simp at hn
    simp [refreshToken, refreshTokenTry, hc, ht, hv, hn]

/-- Witness for `refresh_rejection_no_purge`: at second 700000 the sample principal's
listed token is expired; the request is answered 401 and the token stays listed. -/
theorem refresh_rejection_no_purge_witness :
    (refreshToken (worldAt 700000) aliceDb (cookieReq aliceRefresh1000)).2.status = 401 ∧
    (refreshToken (worldAt 700000) aliceDb (cookieReq aliceRefresh1000)).1 = aliceDb :=
  ⟨by decide,
   ((refresh_rejection_no_purge (worldAt 700000) aliceDb (cookieReq aliceRefresh1000)
      (fun k e h => by simp [worldAt] at h)).1 (by decide)).1⟩

/-! ## What a successful refresh did -/

theorem find_after_filter {db : Db} {user : User} (t : Token)
    (hf : db.users.find? (fun u => u._id == user._id) = some user) :
    (updateFirst user._id
        (fun u => { u with refreshTokens := u.refreshTokens.filter (fun rt => rt.token != t) })
        db.users).find? (fun u => u._id == user._id)
      = some { user with refreshTokens := user.refreshTokens.filter (fun rt => rt.token != t) } := by
  have hupd := find_updateFirst user._id user._id
    (fun u => { u with refreshTokens := u.refreshTokens.filter (fun rt => rt.token != t) })
    (fun _ => rfl) db.users
  rw [hf] at hupd
  simpa using hupd

theorem refreshToken_success_inv (w : World) (db : Db) (req : Req)
    (h200 : (refreshToken w db req).2.status = 200) :
    ∃ token decoded user,
      req.refreshToken = some token ∧
      verifyRefreshToken w token = .ok decoded ∧
      db.users.find? (fun u => u._id == decoded.userId) = some user ∧
      user.isActive = true ∧
      refreshToken w db req
        = (rotated db user._id token
            (generateRefreshToken w { userId := user._id, email := user.email, role := user.role })
            w.now,
           { status := 200
             body := { message := "Token refreshed successfully"
                       accessToken := some (generateAccessToken w
                         { userId := user._id, email := user.email, role := user.role })
                       user := none, error := none }
             cookie := some (.set
               (generateRefreshToken w
                 { userId := user._id, email := user.email, role := user.role })
               (refreshCookieOptions w)) }) := by
  unfold refreshToken refreshTokenTry at h200
  cases hc : req.refreshToken with
  | none => simp [hc, jsonMessage] at h200
  | some token =>
    rw [hc] at h200
    by_cases ht : token.truthy = true
    · cases hv : verifyRefreshToken w token with
      | error e =>
        by_cases hcnd : (e.name == "JsonWebTokenError" || e.name == "TokenExpiredError") = true
        · simp [ht, hv, hcnd, jsonMessage] at h200
        · simp [ht, hv, hcnd, internalError] at h200
      | ok decoded =>
        cases hf0 : w.dbFault 0 with
        | some e =>
          by_cases hcnd : (e.name == "JsonWebTokenError" || e.name == "TokenExpiredError") = true
          · simp [ht, hv, User.findById, hf0, hcnd, jsonMessage] at h200
          · simp [ht, hv, User.findById, hf0, hcnd, internalError] at h200
        | none =>
          cases hf : db.users.find? (fun u => u._id == decoded.userId) with
          | none => simp [ht, hv, User.findById, hf0, hf, jsonMessage] at h200
          | some user =>
            by_cases ha : user.isActive = true
            · by_cases hx : user.refreshTokens.any (fun rt => rt.token == token) = true
              · cases hf1 : w.dbFault 1 with
                | some e =>
                  by_cases hcnd : (e.name == "JsonWebTokenError"
                      || e.name == "TokenExpiredError") = true
                  · simp [ht, hv, User.findById, hf0, hf, ha, hx, removeRefreshToken, hf1,
                      hcnd, jsonMessage] at h200
                  · simp [ht, hv, User.findById, hf0, hf, ha, hx, removeRefreshToken, hf1,
                      hcnd, internalError] at h200
                | none =>
                  have hf' : db.users.find? (fun u => u._id == user._id) = some user := by
                    rw [find_id_eq hf]
                    exact hf
                  have hupd := find_after_filter token hf'
                  cases hf2 : w.dbFault 2 with
                  | some e =>
                    by_cases hcnd : (e.name == "JsonWebTokenError"
                        || e.name == "TokenExpiredError") = true
                    · simp [ht, hv, User.findById, hf0, hf, ha, hx, removeRefreshToken, hf1,
                        addRefreshToken, hf2, hcnd, jsonMessage] at h200
                    · simp [ht, hv, User.findById, hf0, hf, ha, hx, removeRefreshToken, hf1,
                        addRefreshToken, hf2, hcnd, internalError] at h200
                  | none =>
                    refine ⟨token, decoded, user, rfl, hv, hf, ha, ?_⟩
                    simp [refreshToken, refreshTokenTry, hc, ht, hv, User.findById, hf0, hf, ha,
                      hx, removeRefreshToken, hf1, addRefreshToken, hf2, hupd, rotated,
                      generateTokenPair]
              · simp [ht, hv, User.findById, hf0, hf, ha, hx, jsonMessage] at h200
            · simp [ht, hv, User.findById, hf0, hf, ha, jsonMessage] at h200
    · simp [ht, jsonMessage] at h200

/-! ## Removal is idempotent and local -/

theorem updateFirst_eq_self (id : Nat) (f : User → User) (l : List User)
    (h : ∀ u, l.find? (fun u => u._id == id) = some u → f u = u) :
    updateFirst id f l = l := by
  induction l with
  | nil => rfl
  | cons u rest ih =>
    by_cases h1 : u._id = id
    · have := h u (by simp [List.find?_cons, h1])
      simp [updateFirst, h1, this]
    · have hrest : ∀ v, rest.find? (fun u => u._id == id) = some v → f v = v := by
        intro v hv
        apply h v
        simp [List.find?_cons, h1, hv]
      simp [updateFirst, h1, ih hrest]

theorem find_rotated (db : Db) (id j : Nat) (old new : Token) (now : Nat) :
    (rotated db id old new now).users.find? (fun u => u._id == j)
      = (db.users.find? (fun u => u._id == j)).map (fun u =>
          if j = id then
            { u with refreshTokens :=
                u.refreshTokens.filter (fun rt => rt.token != old)
                  ++ [{ token := new, createdAt := now }] }
          else u) := by
  have h1 := find_updateFirst id j
    (fun u => { u with refreshTokens := u.refreshTokens ++ [{ token := new, createdAt := now }] })
    (fun _ => rfl)
    (updateFirst id
      (fun u => { u with refreshTokens := u.refreshTokens.filter (fun rt => rt.token != old) })
      db.users)
  have h2 := find_updateFirst id j
    (fun u => { u with refreshTokens := u.refreshTokens.filter (fun rt => rt.token != old) })
    (fun _ => rfl) db.users
  show List.find? (fun u => u._id == j) (updateFirst id _ (updateFirst id _ db.users)) = _
  rw [h1, h2]
  cases db.users.find? (fun u => u._id == j) with
  | none => rfl
  | some u =>
    by_cases hj : j = id
    · simp [hj]
    · simp [hj]

/-- C18: with the write completing, `removeRefreshToken(t)` on principal `id` succeeds;
when the principal's record does not list `t` (or there is no such principal) the
store is unchanged; when it does, the record afterwards lists exactly the former
entries whose token is not `t`; the record of every other id is untouched.
Consequently a successful refresh leaves in place every entry of the rotating
principal whose token is not the presented one and every record of another id, and the
controller `logout` does the same for the cookie token and the attached principal. -/
theorem removeRefreshToken_idempotent_local (w : World) (db : Db) :
    (∀ k id t, w.dbFault k = none →
      ∃ db1, removeRefreshToken w k db id t = .ok db1 ∧
        ((∀ p, db.users.find? (fun u => u._id == id) = some p →
            ∀ rt ∈ p.refreshTokens, rt.token ≠ t) → db1 = db) ∧
        (∀ p, db.users.find? (fun u => u._id == id) = some p →
          ∃ p1, db1.users.find? (fun u => u._id == id) = some p1 ∧
            ∀ rt, rt ∈ p1.refreshTokens ↔ (rt ∈ p.refreshTokens ∧ rt.token ≠ t)) ∧
        (∀ j, j ≠ id →
          db1.users.find? (fun u => u._id == j) = db.users.find? (fun u => u._id == j))) ∧
    (∀ req old, req.refreshToken = some old →
      (refreshToken w db req).2.status = 200 →
      ∀ j q, db.users.find? (fun u => u._id == j) = some q →
        ∃ q1, (refreshToken w db req).1.users.find? (fun u => u._id == j) = some q1 ∧
          (∀ rt ∈ q.refreshTokens, rt.token ≠ old → rt ∈ q1.refreshTokens) ∧
          ((∀ d, verifyRefreshToken w old = .ok d → d.userId ≠ j) → q1 = q)) ∧
    (∀ req, (authController.logout w db req).2.status = 200 →
      ∀ j q, db.users.find? (fun u => u._id == j) = some q →
        ∃ q1, (authController.logout w db req).1.users.find? (fun u => u._id == j) = some q1 ∧
          (∀ rt ∈ q.refreshTokens, req.refreshToken ≠ some rt.token → rt ∈ q1.refreshTokens) ∧
          (req.user.map (fun u => u._id) ≠ some j → q1 = q)) := by
  refine ⟨?_, ?_, ?_⟩
  · intro k id t hk
    refine ⟨Db.mk (updateFirst id
        (fun u => { u with refreshTokens := u.refreshTokens.filter (fun rt => rt.token != t) })
        db.users), by simp [removeRefreshToken, hk], ?_, ?_, ?_⟩
    · intro habs
      have := updateFirst_eq_self id
        (fun u => { u with refreshTokens := u.refreshTokens.filter (fun rt => rt.token != t) })
        db.users (by
          intro u hu
          have h1 : u.refreshTokens.filter (fun rt => rt.token != t) = u.refreshTokens := by
            rw [List.filter_eq_self]
            intro rt hrt
            simpa using habs u hu rt hrt
          simp [h1])
      simp [this]
    · intro p hp
      have hupd := find_updateFirst id id
        (fun u => { u with refreshTokens := u.refreshTokens.filter (fun rt => rt.token != t) })
        (fun _ => rfl) db.users
      rw [hp] at hupd
      refine ⟨_, by simpa using hupd, ?_⟩
      intro rt
      simp [List.mem_filter]
    · intro j hj
      have hupd := find_updateFirst id j
        (fun u => { u with refreshTokens := u.refreshTokens.filter (fun rt => rt.token != t) })
        (fun _ => rfl) db.users
      simp only [hj, if_false] at hupd
      simpa using hupd
  · intro req old hc h200 j q hq
    obtain ⟨token, decoded, user, hc2, hv, hf, _, heq⟩ := refreshToken_success_inv w db req h200
    rw [hc] at hc2
    cases hc2
    rw [heq]
    simp only [find_rotated, hq, Option.map_some']
    refine ⟨_, rfl, ?_, ?_⟩
    · intro rt hrt hne
      by_cases hj : j = user._id
      · simp [hj, List.mem_filter, hrt, hne]
      · simp [hj, hrt]
    · intro hother
      have hj : ¬ j = user._id := by
        intro h
        apply hother decoded hv
        rw [h]
        exact (find_id_eq hf).symm
      simp [hj]
  · intro req h200 j q hq
    unfold authController.logout authController.logoutTry at h200 ⊢
    cases hc : req.refreshToken with
    | none => simp [hq]
    | some t =>
      cases hu : req.user with
      | none =>
        simp [hq]
        exact fun rt hrt _ => hrt
      | some doc =>
        by_cases ht : t.truthy = true
        · cases hf0 : w.dbFault 0 with
          | some e =>
            rw [hc, hu] at h200
            simp [ht, removeRefreshToken, hf0, internalError] at h200
          | none =>
            have hupd := find_updateFirst doc._id j
              (fun u => { u with refreshTokens :=
                u.refreshTokens.filter (fun rt => rt.token != t) })
              (fun _ => rfl) db.users
            rw [hq] at hupd
            simp only [ht, if_true, removeRefreshToken, hf0, hupd, Option.map_some']
            refine ⟨_, rfl, ?_, ?_⟩
            · intro rt hrt hne
              have hne2 : ¬ rt.token = t := fun h => hne (by rw [h])
              by_cases hj : j = doc._id
              · simp [hj, List.mem_filter, hrt, hne2]
              · simp [hj, hrt]
            · intro hother
              have hj : ¬ j = doc._id := by
                intro h
                apply hother
                simp [h]
              simp [hj]
        · simp [ht, hq]
          exact fun rt hrt _ => hrt

/-- Witness for `removeRefreshToken_idempotent_local`: removing a token the sample
principal does not list succeeds and changes nothing. -/
theorem removeRefreshToken_idempotent_local_witness :
    removeRefreshToken (worldAt 1500) 0 aliceDb 1 aliceAccess1000 = .ok aliceDb := by
  obtain ⟨db1, h1, h2, _, _⟩ :=
    (removeRefreshToken_idempotent_local (worldAt 1500) aliceDb).1 0 1 aliceAccess1000 rfl
  rw [h1, h2 (by
    intro p hp rt hrt
    have hp2 : p = alice [{ token := aliceRefresh1000, createdAt := 1000 }] := by
      have h3 : some p = some (alice [{ token := aliceRefresh1000, createdAt := 1000 }]) := by
        rw [← hp]
        decide
      exact Option.some.inj h3
    subst hp2
    have hrt2 : rt = { token := aliceRefresh1000, createdAt := 1000 } := by
      simpa [alice] using hrt
    subst hrt2
    decide)]

/-! ## The live principal -/

theorem authenticateToken_next_inv (w : World) (db : Db) (req : Req)
    (h : (authenticateToken w db req).nextCalls = 1) :
    ∃ token decoded u,
      headerToken req.authorization = some token ∧
      verifyAccessToken w token = .ok decoded ∧
      db.users.find? (fun u => u._id == decoded.userId) = some u ∧
      u.isActive = true ∧
      authenticateToken w db req
        = { req := { req with user := some u.select }, sent := [], nextCalls := 1 } := by
  unfold authenticateToken authenticateTokenTry at h
  cases hh : headerToken req.authorization with
  | none => simp [hh] at h
  | some token =>
    rw [hh] at h
    by_cases ht : token.truthy = true
    · cases hv : verifyAccessToken w token with
      | error e =>
        by_cases h1 : e.name = "JsonWebTokenError"
        · simp [ht, hv, h1] at h
        · by_cases h2 : e.name = "TokenExpiredError"
          · simp [ht, hv, h2] at h
          · simp [ht, hv, h1, h2] at h
      | ok decoded =>
        cases hf0 : w.dbFault 0 with
        | some e =>
          by_cases h1 : e.name = "JsonWebTokenError"
          · simp [ht, hv, User.findById, hf0, h1] at h
          · by_cases h2 : e.name = "TokenExpiredError"
            · simp [ht, hv, User.findById, hf0, h2] at h
            · simp [ht, hv, User.findById, hf0, h1, h2] at h
        | none =>
          cases hf : db.users.find? (fun u => u._id == decoded.userId) with
          | none => simp [ht, hv, User.findById, hf0, hf] at h
          | some u =>
            by_cases ha : u.isActive = true
            · exact ⟨token, decoded, u, rfl, hv, hf, ha,
                authenticateToken_of_valid w db req token decoded u hf0 hh hv hf ha⟩
            · simp [ht, hv, User.findById, hf0, hf, ha, User.select] at h
    · simp [ht] at h

/-- C20: when `authenticateToken` lets a request through, the principal it attached is
the record stored for the token's `userId`; two requests whose tokens verify and name
the same `userId` get the same answer from the stage, the same principal attached
and the same decision from every role gate, whatever email and role the tokens claim;
and the access token and the refresh token a successful refresh issues carry the id,
email and role of the stored record, not those of the presented token. -/
theorem live_principal_not_claims (w : World) (db : Db) :
    (∀ req, (authenticateToken w db req).nextCalls = 1 →
      ∃ token decoded u,
        headerToken req.authorization = some token ∧
        verifyAccessToken w token = .ok decoded ∧
        db.users.find? (fun u => u._id == decoded.userId) = some u ∧
        (authenticateToken w db req).req.user = some u.select) ∧
    (∀ req1 req2 t1 t2 d1 d2,
      headerToken req1.authorization = some t1 → verifyAccessToken w t1 = .ok d1 →
      headerToken req2.authorization = some t2 → verifyAccessToken w t2 = .ok d2 →
      req1.user = req2.user →
      d1.userId = d2.userId →
      (authenticateToken w db req1).sent = (authenticateToken w db req2).sent ∧
      (authenticateToken w db req1).nextCalls = (authenticateToken w db req2).nextCalls ∧
      (authenticateToken w db req1).req.user = (authenticateToken w db req2).req.user ∧
      ∀ roles,
        (requireRole roles (authenticateToken w db req1).req).sent
          = (requireRole roles (authenticateToken w db req2).req).sent ∧
        (requireRole roles (authenticateToken w db req1).req).nextCalls
          = (requireRole roles (authenticateToken w db req2).req).nextCalls) ∧
    (∀ req, (refreshToken w db req).2.status = 200 →
      ∃ token decoded u,
        req.refreshToken = some token ∧
        verifyRefreshToken w token = .ok decoded ∧
        db.users.find? (fun u => u._id == decoded.userId) = some u ∧
        (refreshToken w db req).2.body.accessToken
          = some (generateAccessToken w
              { userId := u._id, email := u.email, role := u.role }) ∧
        (refreshToken w db req).2.cookie
          = some (.set
              (generateRefreshToken w { userId := u._id, email := u.email, role := u.role })
              (refreshCookieOptions w))) := by
  refine ⟨?_, ?_, ?_⟩
  · intro req h
    obtain ⟨token, decoded, u, hh, hv, hf, _, heq⟩ := authenticateToken_next_inv w db req h
    exact ⟨token, decoded, u, hh, hv, hf, by rw [heq]⟩
  · intro req1 req2 t1 t2 d1 d2 hh1 hv1 hh2 hv2 hu hid
    have ht1 := truthy_of_verify hv1
    have ht2 := truthy_of_verify hv2
    have key : (authenticateToken w db req1).sent = (authenticateToken w db req2).sent ∧
        (authenticateToken w db req1).nextCalls = (authenticateToken w db req2).nextCalls ∧
        (authenticateToken w db req1).req.user = (authenticateToken w db req2).req.user := by
      unfold authenticateToken authenticateTokenTry
      simp only [hh1, hh2, ht1, ht2, hv1, hv2, hid]
      cases hq : User.findById w 0 db d2.userId with
      | error e =>
        by_cases h1 : e.name = "JsonWebTokenError"
        · simp [h1, hu]
        · by_cases h2 : e.name = "TokenExpiredError"
          · simp [h2, hu]
          · simp [h1, h2, hu]
      | ok found =>
        cases found with
        | none => simp [hu]
        | some u =>
          by_cases ha : u.isActive = true
          · simp [ha, User.select]
          · simp [ha, User.select, hu]
    refine ⟨key.1, key.2.1, key.2.2, ?_⟩
    intro roles
    unfold requireRole
    rw [key.2.2]
    cases (authenticateToken w db req2).req.user with
    | none => simp
    | some p =>
      by_cases hr : p.role ∈ (match roles with
          | .many rs => rs
          | .one r => [r])
      · simp [hr]
      · simp [hr]
  · intro req h200
    obtain ⟨token, decoded, u, hc, hv, hf, _, heq⟩ := refreshToken_success_inv w db req h200
    exact ⟨token, decoded, u, hc, hv, hf, by rw [heq], by rw [heq]⟩

/-- Witness for `live_principal_not_claims`: a token that claims the role `provider`
for the sample principal, stored as `client`, attaches the stored record, and the
gate for `provider` answers 403. -/
theorem live_principal_not_claims_witness :
    (authenticateToken (worldAt 1500) aliceDb
        (bearerReq (.signed "access-secret"
          { userId := 1, email := "a@x.com", role := "provider" } 1000 1900))).req.user
      = some (alice []).select ∧
    (requireRole (.one "provider")
        (authenticateToken (worldAt 1500) aliceDb
          (bearerReq (.signed "access-secret"
            { userId := 1, email := "a@x.com", role := "provider" } 1000 1900))).req).sent
      = [jsonMessage 403 "Insufficient permissions"] := by
  have h := (live_principal_not_claims (worldAt 1500) aliceDb).2.1
    (bearerReq (.signed "access-secret"
      { userId := 1, email := "a@x.com", role := "provider" } 1000 1900))
    (bearerReq aliceAccess1000)
    (.signed "access-secret" { userId := 1, email := "a@x.com", role := "provider" } 1000 1900)
    aliceAccess1000
    { userId := 1, email := "a@x.com", role := "provider", iat := 1000, exp := 1900 }
    { userId := 1, email := "a@x.com", role := "client", iat := 1000, exp := 1900 }
    rfl (by rfl) rfl (by rfl) rfl rfl
  refine ⟨?_, ?_⟩
  · rw [h.2.2.1]
    decide
  · rw [(h.2.2.2 (.one "provider")).1]
    decide

/-! ## Issued means stored -/

theorem verifyAccess_generate (w w2 : World) (payload : Payload) (henv : w2.env = w.env)
    (hnow : w2.now < w.now + w.env.JWT_ACCESS_EXPIRE.getD 900) :
    verifyAccessToken w2 (generateAccessToken w payload)
      = .ok { userId := payload.userId, email := payload.email, role := payload.role
              iat := w.now, exp := w.now + w.env.JWT_ACCESS_EXPIRE.getD 900 } := by
  have h2 : ¬ (w.now + w.env.JWT_ACCESS_EXPIRE.getD 900 ≤ w2.now) := by omega
  simp [verifyAccessToken, generateAccessToken, jwt.sign, jwt.verify, henv, h2]

theorem verifyRefresh_generate (w w2 : World) (payload : Payload) (henv : w2.env = w.env)
    (hnow : w2.now < w.now + w.env.JWT_REFRESH_EXPIRE.getD 604800) :
    verifyRefreshToken w2 (generateRefreshToken w payload)
      = .ok { userId := payload.userId, email := payload.email, role := payload.role
              iat := w.now, exp := w.now + w.env.JWT_REFRESH_EXPIRE.getD 604800 } := by
  have h2 : ¬ (w.now + w.env.JWT_REFRESH_EXPIRE.getD 604800 ≤ w2.now) := by omega
  simp [verifyRefreshToken, generateRefreshToken, jwt.sign, jwt.verify, henv, h2]

theorem refreshToken_of_valid (w : World) (db : Db) (req : Req) (token : Token)
    (decoded : Decoded) (user : User)
    (hdb : ∀ k, w.dbFault k = none)
    (hc : req.refreshToken = some token)
    (hv : verifyRefreshToken w token = .ok decoded)
    (hf : db.users.find? (fun u => u._id == decoded.userId) = some user)
    (ha : user.isActive = true)
    (hl : ∃ rt ∈ user.refreshTokens, rt.token = token) :
    (refreshToken w db req).2.status = 200 := by
  have ht := truthy_of_verify hv
  have hx : user.refreshTokens.any (fun rt => rt.token == token) = true := by
    simpa using hl
  have hf2 : db.users.find? (fun u => u._id == user._id) = some user := by
    rw [find_id_eq hf]
    exact hf
  have hupd := find_after_filter token hf2
  simp [refreshToken, refreshTokenTry, hc, ht, hv, User.findById, hdb, hf, ha, hx,
    removeRefreshToken, addRefreshToken, hupd]

theorem issued_of_record (w : World) (db : Db) (res : Response) (u : User)
    (hfind : db.users.find? (fun x => x._id == u._id) = some u)
    (ha : u.isActive = true)
    (hcookie : res.cookie
      = some (.set (generateRefreshToken w { userId := u._id, email := u.email, role := u.role })
          (refreshCookieOptions w)))
    (hl : ∃ rt ∈ u.refreshTokens,
      rt.token = generateRefreshToken w { userId := u._id, email := u.email, role := u.role })
    (hbody : res.body.accessToken
      = some (generateAccessToken w { userId := u._id, email := u.email, role := u.role })) :
    IssuedMeansStored w db res := by
  refine ⟨u, hfind, hcookie, hl, hbody, ?_, ?_⟩
  · intro w2 req henv h0 hnow hh
    have hv := verifyAccess_generate w w2
      { userId := u._id, email := u.email, role := u.role } henv hnow
    have hauth := authenticateToken_of_valid w2 db req _ _ u h0 hh hv hfind ha
    refine ⟨hauth, ?_⟩
    simp [getProfileRoute, route, hauth, getProfile]
  · intro w2 req henv hdb hnow hc
    have hv := verifyRefresh_generate w w2
      { userId := u._id, email := u.email, role := u.role } henv hnow
    exact refreshToken_of_valid w2 db req _ _ u hdb hc hv hfind ha hl

theorem find_after_append {db : Db} {user : User} (e : RefreshEntry)
    (hf : db.users.find? (fun u => u._id == user._id) = some user) :
    (updateFirst user._id
        (fun u => { u with refreshTokens := u.refreshTokens ++ [e] })
        db.users).find? (fun u => u._id == user._id)
      = some { user with refreshTokens := user.refreshTokens ++ [e] } := by
  have hupd := find_updateFirst user._id user._id
    (fun u => { u with refreshTokens := u.refreshTokens ++ [e] })
    (fun _ => rfl) db.users
  rw [hf] at hupd
  simpa using hupd

theorem find_of_unique {l : List User} (hu : l.Pairwise (fun a b => a._id ≠ b._id))
    {u : User} (hmem : u ∈ l) :
    l.find? (fun x => x._id == u._id) = some u := by
  induction l with
  | nil => cases hmem
  | cons a rest ih =>
    rw [List.pairwise_cons] at hu
    rcases List.mem_cons.1 hmem with h | h
    · subst h
      simp [List.find?_cons]
    · have hne : ¬ a._id = u._id := hu.1 u h
      simp [List.find?_cons, hne, ih hu.2 h]

theorem lt_freshId {db : Db} {u : User} (hmem : u ∈ db.users) : u._id < freshId db := by
  unfold freshId
  have key : ∀ l : List User, u ∈ l → u._id ≤ (l.map (fun u => u._id)).foldr max 0 := by
    intro l hl
    induction l with
    | nil => cases hl
    | cons a rest ih =>
      rcases List.mem_cons.1 hl with h | h
      · subst h
        simp
      · have := ih h
        simp only [List.map_cons, List.foldr_cons]
        omega
  have := key db.users hmem
  omega

theorem find_fresh (db : Db) (user : User) (hid : user._id = freshId db) :
    (db.users ++ [user]).find? (fun u => u._id == user._id) = some user := by
  have hnone : db.users.find? (fun u => u._id == user._id) = none := by
    rw [List.find?_eq_none]
    intro x hx
    have := lt_freshId hx
    simp
    omega
  simp [List.find?_append, hnone]

theorem login_success_inv (w : World) (db : Db) (req : Req)
    (h200 : (login w db req).2.status = 200) :
    ∃ email user,
      db.users.find? (fun u => u.email == email) = some user ∧
      user.isActive = true ∧
      login w db req
        = ({ users := updateFirst user._id
              (fun u => { u with refreshTokens := u.refreshTokens ++
                [{ token := generateRefreshToken w
                    { userId := user._id, email := user.email, role := user.role }
                   createdAt := w.now }] })
              db.users },
           { status := 200
             body := { message := "Login successful"
                       accessToken := some (generateAccessToken w
                         { userId := user._id, email := user.email, role := user.role })
                       user := some user.select, error := none }
             cookie := some (.set
               (generateRefreshToken w
                 { userId := user._id, email := user.email, role := user.role })
               (refreshCookieOptions w)) }) := by
  unfold login loginTry at h200
  by_cases hm : ((match req.email with
      | none => true
      | some s => s == "") || (match req.password with
      | none => true
      | some s => s == "")) = true
  · simp [hm, jsonMessage] at h200
  · cases hf0 : w.dbFault 0 with
    | some e => simp [hm, User.findOne, hf0, internalError] at h200
    | none =>
      cases hf : db.users.find? (fun u => u.email == req.email.getD "") with
      | none => simp [hm, User.findOne, hf0, hf, jsonMessage] at h200
      | some user =>
        by_cases ha : user.isActive = true
        · by_cases hpw : User.comparePassword w user (req.password.getD "") = true
          · cases hf1 : w.dbFault 1 with
            | some e =>
              simp [hm, User.findOne, hf0, hf, ha, hpw, addRefreshToken, hf1, internalError]
                at h200
            | none =>
              cases hfid : db.users.find? (fun u => u._id == user._id) with
              | none =>
                simp [hm, User.findOne, hf0, hf, ha, hpw, addRefreshToken, hf1, hfid,
                  internalError] at h200
              | some first =>
                refine ⟨req.email.getD "", user, hf, ha, ?_⟩
                simp [login, loginTry, hm, User.findOne, hf0, hf, ha, hpw, addRefreshToken, hf1,
                  hfid, generateTokenPair]
          · simp [hm, User.findOne, hf0, hf, ha, hpw, jsonMessage] at h200
        · simp [hm, User.findOne, hf0, hf, ha, jsonMessage] at h200

theorem register_success_inv (w : World) (db : Db) (body : RegisterBody)
    (h201 : (register w db body).2.status = 201) :
    ∃ user : User,
      user._id = freshId db ∧ user.isActive = true ∧ user.refreshTokens = [] ∧
      register w db body
        = ({ users := updateFirst user._id
              (fun u => { u with refreshTokens := u.refreshTokens ++
                [{ token := generateRefreshToken w
                    { userId := user._id, email := user.email, role := user.role }
                   createdAt := w.now }] })
              (db.users ++ [user]) },
           { status := 201
             body := { message := "User registered successfully"
                       accessToken := some (generateAccessToken w
                         { userId := user._id, email := user.email, role := user.role })
                       user := some user.select, error := none }
             cookie := some (.set
               (generateRefreshToken w
                 { userId := user._id, email := user.email, role := user.role })
               (refreshCookieOptions w)) }) := by
  have hcatch : ∀ (d : Db) (e : JsError),
      (if e.code == some 11000 then (d, jsonMessage 400 "Email already exists")
        else if e.name == "ValidationError" then
          (d, ({ status := 400
                 body := { message := "Validation error", accessToken := none, user := none
                           error := none, errors := some e.errors }
                 cookie := none } : Response))
        else (d, internalError w "Registration failed" e)).2.status ≠ 201 := by
    intro d e
    split
    · simp [jsonMessage]
    · split
      · simp
      · simp [internalError]
  unfold register at h201
  cases hr : registerTry w db body with
  | mk db1 out =>
    rw [hr] at h201
    cases out with
    | error e => exact absurd h201 (hcatch db1 e)
    | ok res =>
      unfold registerTry at hr
      cases hex : (match body.email with
          | none => (Except.ok none : Except JsError (Option User))
          | some email => User.findOne w 0 db email) with
      | error e => simp [hex] at hr
      | ok found =>
        cases found with
        | some existing =>
          simp [hex] at hr
          rw [← hr.2] at h201
          simp [jsonMessage] at h201
        | none =>
          cases hcr : User.create w 1 db body.email body.password
              (match body.role with
                | none => "client"
                | some r => if r == "" then "client" else r) with
          | error e =>
            simp only [hex, hcr] at hr
            simp at hr
          | ok created =>
            obtain ⟨db2, user⟩ := created
            have huser : user._id = freshId db ∧ user.isActive = true ∧
                user.refreshTokens = [] ∧ db2 = { users := db.users ++ [user] } := by
              unfold User.create at hcr
              cases hf1 : w.dbFault 1 with
              | some e => simp [hf1] at hcr
              | none =>
                cases he : body.email with
                | none => simp [hf1, he] at hcr
                | some e =>
                  cases hp : body.password with
                  | none => simp [hf1, he, hp] at hcr
                  | some pw =>
                    simp only [hf1, he, hp] at hcr
                    split at hcr
                    · cases hcr
                    · cases hcr
                      exact ⟨rfl, rfl, rfl, rfl⟩
            obtain ⟨hid, hact, htok, hdb2⟩ := huser
            have hfind := find_fresh db user hid
            cases hf2 : w.dbFault 2 with
            | some e =>
              simp only [hex, hcr, addRefreshToken, hf2] at hr
              simp at hr
            | none =>
              subst hdb2
              refine ⟨user, hid, hact, htok, ?_⟩
              simp only [register, registerTry, hex, hcr, addRefreshToken, hf2, hfind,
                generateTokenPair]

/-- C19: after a register call answered 201, a login call answered 200 (on a store
with unique ids) and a refresh call answered 200, the response and the store the call
left satisfy `IssuedMeansStored`: the cookie's refresh token is listed by the stored
principal its claims name, and the body's access token is accepted by
`authenticateToken` and resolves to that principal (so `GET /auth/profile` returns it
and a refresh with the cookie is accepted) for as long as the tokens have not
expired. -/
theorem issued_means_stored (w : World) (db : Db) :
    (∀ body, (register w db body).2.status = 201 →
      IssuedMeansStored w (register w db body).1 (register w db body).2) ∧
    (∀ req, uniqueIds db → (login w db req).2.status = 200 →
      IssuedMeansStored w (login w db req).1 (login w db req).2) ∧
    (∀ req, (refreshToken w db req).2.status = 200 →
      IssuedMeansStored w (refreshToken w db req).1 (refreshToken w db req).2) := by
  refine ⟨?_, ?_, ?_⟩
  · intro body h201
    obtain ⟨user, hid, hact, _, heq⟩ := register_success_inv w db body h201
    rw [heq]
    have hfind := @find_after_append (Db.mk (db.users ++ [user])) user
      { token := generateRefreshToken w
          { userId := user._id, email := user.email, role := user.role }
        createdAt := w.now } (find_fresh db user hid)
    exact issued_of_record w _ _
      { user with refreshTokens := user.refreshTokens ++
          [{ token := generateRefreshToken w
              { userId := user._id, email := user.email, role := user.role }
             createdAt := w.now }] }
      hfind hact rfl ⟨_, List.mem_append_right _ (List.mem_singleton.2 rfl), rfl⟩ rfl
  · intro req huniq h200
    obtain ⟨email, user, hf, hact, heq⟩ := login_success_inv w db req h200
    rw [heq]
    have hmem : user ∈ db.users := List.mem_of_find?_eq_some hf
    have hfind := @find_after_append db user
      { token := generateRefreshToken w
          { userId := user._id, email := user.email, role := user.role }
        createdAt := w.now } (find_of_unique huniq hmem)
    exact issued_of_record w _ _
      { user with refreshTokens := user.refreshTokens ++
          [{ token := generateRefreshToken w
              { userId := user._id, email := user.email, role := user.role }
             createdAt := w.now }] }
      hfind hact rfl ⟨_, List.mem_append_right _ (List.mem_singleton.2 rfl), rfl⟩ rfl
  · intro req h200
    obtain ⟨token, decoded, user, _, _, hf, hact, heq⟩ := refreshToken_success_inv w db req h200
    rw [heq]
    have hf2 : db.users.find? (fun u => u._id == user._id) = some user := by
      rw [find_id_eq hf]
      exact hf
    have hfind := find_rotated db user._id user._id token
      (generateRefreshToken w { userId := user._id, email := user.email, role := user.role })
      w.now
    rw [hf2] at hfind
    simp only [Option.map_some', if_true] at hfind
    exact issued_of_record w _ _
      { user with refreshTokens :=
          user.refreshTokens.filter (fun rt => rt.token != token) ++
          [{ token := generateRefreshToken w
              { userId := user._id, email := user.email, role := user.role }
             createdAt := w.now }] }
      hfind hact rfl ⟨_, List.mem_append_right _ (List.mem_singleton.2 rfl), rfl⟩ rfl

/-- Witness for `issued_means_stored`: a new client registers at second 1000 on the
sample store, and the sample principal logs in. -/
theorem issued_means_stored_witness :
    (register (worldAt 1000) aliceDb bobBody).2.status = 201 ∧
    IssuedMeansStored (worldAt 1000) (register (worldAt 1000) aliceDb bobBody).1
      (register (worldAt 1000) aliceDb bobBody).2 ∧
    uniqueIds aliceDb ∧
    IssuedMeansStored (worldAt 2000) (login (worldAt 2000) aliceDb (loginReq "a@x.com" "secret1")).1
      (login (worldAt 2000) aliceDb (loginReq "a@x.com" "secret1")).2 :=
  ⟨by decide,
   (issued_means_stored (worldAt 1000) aliceDb).1 bobBody (by decide),
   by simp [uniqueIds, aliceDb],
   (issued_means_stored (worldAt 2000) aliceDb).2.1 (loginReq "a@x.com" "secret1")
     (by simp [uniqueIds, aliceDb]) (by decide)⟩

/-! ## Propagation of other failures by the client -/

/-- C21: for a failed response whose status is not 401, or a failure with no response,
the rejection handler of the response hook rejects with the error it was given and
returns the client as it was: no request is put on the network (neither a refresh
call nor the request again), and the held token and the persisted slot are
unchanged. This holds whatever the axios instance behind the hook does. -/
theorem responseInterceptor_propagates (axios : Client → Config → Client × Option Settled)
    (c : Client) (error : AxiosError)
    (h : error.response.map (fun r => r.status) ≠ some 401) :
    responseInterceptor axios c error = (c, some (.rejected error)) := by
  have hb : (error.response.map (fun r => r.status) == some 401) = false := by
    simpa using h
  simp [responseInterceptor, hb]

/-- Witness for `responseInterceptor_propagates`: a 500 answer to `GET /users`. -/
theorem responseInterceptor_propagates_witness :
    (rejected500 getUsers).response.map (fun r => r.status) ≠ some 401 ∧
    responseInterceptor (axios always401 5) staleClient (rejected500 getUsers)
      = (staleClient, some (.rejected (rejected500 getUsers))) :=
  ⟨by decide,
   responseInterceptor_propagates (axios always401 5) staleClient (rejected500 getUsers)
     (by decide)⟩

/-! ## Login outcomes -/

/-- C22: `login` answers 400 exactly when email or password is missing or empty;
otherwise, the lookup completing, it answers 401 with the one body
`Invalid credentials` when no principal has the email, when the principal is
inactive, and when the password does not match; and on every 400 or 401 answer the
store is unchanged, the body carries no access token and no cookie is set. -/
theorem login_outcomes (w : World) (db : Db) (req : Req) :
    ((login w db req).2.status = 400 ↔
      (req.email = none ∨ req.email = some "" ∨
        req.password = none ∨ req.password = some "")) ∧
    (∀ email password,
      req.email = some email → email ≠ "" →
      req.password = some password → password ≠ "" →
      w.dbFault 0 = none →
      (db.users.find? (fun u => u.email == email) = none ∨
        ∃ u, db.users.find? (fun u => u.email == email) = some u ∧
          (u.isActive = false ∨ User.comparePassword w u password = false)) →
      login w db req = (db, jsonMessage 401 "Invalid credentials")) ∧
    (((login w db req).2.status = 400 ∨ (login w db req).2.status = 401) →
      (login w db req).1 = db ∧
      (login w db req).2.body.accessToken = none ∧
      (login w db req).2.cookie = none) := by
  have hmiss : ∀ (f : Option String),
      ((match f with
        | none => true
        | some s => s == "") = true) ↔ (f = none ∨ f = some "") := by
    intro f
    cases f with
    | none => simp
    | some s => simp
  by_cases hm : ((match req.email with
      | none => true
      | some s => s == "") || (match req.password with
      | none => true
      | some s => s == "")) = true
  · have hm2 : req.email = none ∨ req.email = some "" ∨
        req.password = none ∨ req.password = some "" := by
      rw [Bool.or_eq_true, hmiss, hmiss] at hm
      tauto
    refine ⟨?_, ?_, ?_⟩
    · simp [login, loginTry, hm, jsonMessage, hm2]
    · intro email password he hne hp hnp
      exfalso
      rcases hm2 with h | h | h | h
      · rw [he] at h; cases h
      · rw [he] at h; exact hne (Option.some.inj h)
      · rw [hp] at h; cases h
      · rw [hp] at h; exact hnp (Option.some.inj h)
    · intro _
      simp [login, loginTry, hm, jsonMessage]
  · have hm2 : ¬ (req.email = none ∨ req.email = some "" ∨
        req.password = none ∨ req.password = some "") := by
      intro h
      apply hm
      rw [Bool.or_eq_true, hmiss, hmiss]
      tauto
    unfold login loginTry
    simp only [hm, hm2, Bool.false_eq_true, if_false, iff_false]
    cases hf0 : w.dbFault 0 with
    | some e => simp [User.findOne, hf0, internalError]
    | none =>
      cases hf : db.users.find? (fun u => u.email == req.email.getD "") with
      | none =>
        refine ⟨by simp [User.findOne, hf0, hf, jsonMessage], ?_, by
          simp [User.findOne, hf0, hf, jsonMessage]⟩
        intro email password he _ hp _ _ _
        simp [User.findOne, hf0, hf]
      | some user =>
        by_cases ha : user.isActive = true
        · by_cases hpw : User.comparePassword w user (req.password.getD "") = true
          · cases hf1 : w.dbFault 1 with
            | some e =>
              refine ⟨by simp [User.findOne, hf0, hf, ha, hpw, addRefreshToken, hf1,
                internalError], ?_, by simp [User.findOne, hf0, hf, ha, hpw, addRefreshToken,
                hf1, internalError]⟩
              intro email password he _ hp _ _ hcase
              exfalso
              rw [he] at hf
              rw [hp] at hpw
              simp only [Option.getD_some] at hf hpw
              rcases hcase with h | ⟨u, hu, h⟩
              · rw [hf] at h; cases h
              · rw [hf] at hu
                cases hu
                rcases h with h | h
                · rw [ha] at h; cases h
                · rw [hpw] at h; cases h
            | none =>
              cases hfid : db.users.find? (fun u => u._id == user._id) with
              | none =>
                refine ⟨by simp [User.findOne, hf0, hf, ha, hpw, addRefreshToken, hf1, hfid,
                  internalError], ?_, by simp [User.findOne, hf0, hf, ha, hpw, addRefreshToken,
                  hf1, hfid, internalError]⟩
                intro email password he _ hp _ _ hcase
                exfalso
                rw [he] at hf
                rw [hp] at hpw
                simp only [Option.getD_some] at hf hpw
                rcases hcase with h | ⟨u, hu, h⟩
                · rw [hf] at h; cases h
                · rw [hf] at hu
                  cases hu
                  rcases h with h | h
                  · rw [ha] at h; cases h
                  · rw [hpw] at h; cases h
              | some first =>
                refine ⟨by simp [User.findOne, hf0, hf, ha, hpw, addRefreshToken, hf1, hfid],
                  ?_, by simp [User.findOne, hf0, hf, ha, hpw, addRefreshToken, hf1, hfid]⟩
                intro email password he _ hp _ _ hcase
                exfalso
                rw [he] at hf
                rw [hp] at hpw
                simp only [Option.getD_some] at hf hpw
                rcases hcase with h | ⟨u, hu, h⟩
                · rw [hf] at h; cases h
                · rw [hf] at hu
                  cases hu
                  rcases h with h | h
                  · rw [ha] at h; cases h
                  · rw [hpw] at h; cases h
          · refine ⟨by simp [User.findOne, hf0, hf, ha, hpw, jsonMessage], ?_, by
              simp [User.findOne, hf0, hf, ha, hpw, jsonMessage]⟩
            intro _ _ _ _ _ _ _ _
            simp [User.findOne, hf0, hf, ha, hpw]
        · refine ⟨by simp [User.findOne, hf0, hf, ha, jsonMessage], ?_, by
            simp [User.findOne, hf0, hf, ha, jsonMessage]⟩
          intro _ _ _ _ _ _ _ _
          simp [User.findOne, hf0, hf, ha]

/-- Witness for `login_outcomes`: a wrong password for the sample principal, and a
login for an email nobody has, get the same 401 answer. -/
theorem login_outcomes_witness :
    login (worldAt 1500) aliceDb (loginReq "a@x.com" "wrong")
      = (aliceDb, jsonMessage 401 "Invalid credentials") ∧
    login (worldAt 1500) aliceDb (loginReq "nobody@x.com" "secret1")
      = (aliceDb, jsonMessage 401 "Invalid credentials") :=
  ⟨(login_outcomes (worldAt 1500) aliceDb (loginReq "a@x.com" "wrong")).2.1
      "a@x.com" "wrong" rfl (by decide) rfl (by decide) rfl
      (Or.inr ⟨alice [{ token := aliceRefresh1000, createdAt := 1000 }], by decide,
        Or.inr (by decide)⟩),
   (login_outcomes (worldAt 1500) aliceDb (loginReq "nobody@x.com" "secret1")).2.1
      "nobody@x.com" "secret1" rfl (by decide) rfl (by decide) rfl (Or.inl (by decide))⟩

/-! ## Cookie attributes and lifetimes -/

theorem cookieAttributes_of (w : World) (res : Response) (payload : Payload)
    (h : res.cookie = some (.set (generateRefreshToken w payload) (refreshCookieOptions w))) :
    CookieAttributes w res := by
  refine ⟨generateRefreshToken w payload, refreshCookieOptions w, w.now,
    w.now + w.env.JWT_REFRESH_EXPIRE.getD 604800, h, rfl, rfl, ?_, rfl, rfl, rfl, rfl, ?_, ?_⟩
  · simp [refreshCookieOptions]
  · omega
  · simp only [refreshCookieOptions]
    omega

/-- C23 (counterexample): with `JWT_REFRESH_EXPIRE` set to one hour, a successful
login sets the cookie with a max-age of 604800000 ms while the refresh token it
carries expires 3600 s after it was issued. -/
theorem cookie_outlives_token :
    (login (worldOf hourRefreshEnv 1000) aliceDb (loginReq "a@x.com" "secret1")).2.cookie
      = some (.set (.signed "refresh-secret" alicePayload 1000 4600)
          { httpOnly := true, secure := true, sameSite := "strict", maxAge := 604800000 }) ∧
    (604800000 : Nat) ≠ 1000 * (4600 - 1000) := by
  refine ⟨by decide, by decide⟩

/-- C23 (amended): every successful answer of register (201), login (200) and refresh
(200) sets the `refreshToken` cookie with `httpOnly` true, `sameSite` strict, `secure`
true exactly when `NODE_ENV` is `production`, and a max-age of exactly
7*24*60*60*1000 = 604800000 ms; the token in the cookie has the configured refresh
lifetime, and the max-age equals it exactly when that lifetime is 7 days, as it is
when `JWT_REFRESH_EXPIRE` is unset. -/
theorem refresh_cookie_attributes (w : World) (db : Db) :
    (∀ body, (register w db body).2.status = 201 →
      CookieAttributes w (register w db body).2) ∧
    (∀ req, (login w db req).2.status = 200 → CookieAttributes w (login w db req).2) ∧
    (∀ req, (refreshToken w db req).2.status = 200 →
      CookieAttributes w (refreshToken w db req).2) ∧
    (w.env.JWT_REFRESH_EXPIRE = none → w.env.JWT_REFRESH_EXPIRE.getD 604800 = 604800) := by
  refine ⟨?_, ?_, ?_, ?_⟩
  · intro body h
    obtain ⟨user, _, _, _, heq⟩ := register_success_inv w db body h
    rw [heq]
    exact cookieAttributes_of w _ _ rfl
  · intro req h
    obtain ⟨_, user, _, _, heq⟩ := login_success_inv w db req h
    rw [heq]
    exact cookieAttributes_of w _ _ rfl
  · intro req h
    obtain ⟨_, _, user, _, _, _, _, heq⟩ := refreshToken_success_inv w db req h
    rw [heq]
    exact cookieAttributes_of w _ _ rfl
  · intro h
    rw [h]
    rfl

/-- Witness for `refresh_cookie_attributes`: the login of the sample principal under
the sample environment. -/
theorem refresh_cookie_attributes_witness :
    (login (worldAt 1000) aliceDb (loginReq "a@x.com" "secret1")).2.status = 200 ∧
    CookieAttributes (worldAt 1000)
      (login (worldAt 1000) aliceDb (loginReq "a@x.com" "secret1")).2 :=
  ⟨by decide,
   (refresh_cookie_attributes (worldAt 1000) aliceDb).2.1 (loginReq "a@x.com" "secret1")
     (by decide)⟩

/-- C24 (counterexample): with `JWT_ACCESS_EXPIRE` set to seven days and
`JWT_REFRESH_EXPIRE` unset, both tokens of a pair expire at the same second. -/
theorem pair_expiries_equal :
    (generateTokenPair (worldOf weekAccessEnv 1000) alicePayload).accessToken.expiry
      = some 605800 ∧
    (generateTokenPair (worldOf weekAccessEnv 1000) alicePayload).refreshToken.expiry
      = some 605800 := by
  refine ⟨by decide, by decide⟩

/-- C24 (amended): the access token of a pair expires the configured access lifetime
(default 900 s) and the refresh token the configured refresh lifetime (default
604800 s) after issuance; the refresh token's expiry is strictly later exactly when
the access lifetime is shorter than the refresh lifetime, which is the case when
none is configured. -/
theorem pair_lifetimes (w : World) (payload : Payload) :
    (generateTokenPair w payload).accessToken.expiry
      = some (w.now + w.env.JWT_ACCESS_EXPIRE.getD 900) ∧
    (generateTokenPair w payload).refreshToken.expiry
      = some (w.now + w.env.JWT_REFRESH_EXPIRE.getD 604800) ∧
    (generateTokenPair w payload).accessToken.issuedAt = some w.now ∧
    (generateTokenPair w payload).refreshToken.issuedAt = some w.now ∧
    (w.now + w.env.JWT_ACCESS_EXPIRE.getD 900 < w.now + w.env.JWT_REFRESH_EXPIRE.getD 604800 ↔
      w.env.JWT_ACCESS_EXPIRE.getD 900 < w.env.JWT_REFRESH_EXPIRE.getD 604800) ∧
    (w.env.JWT_ACCESS_EXPIRE = none → w.env.JWT_REFRESH_EXPIRE = none →
      (generateTokenPair w payload).accessToken.expiry = some (w.now + 900) ∧
      (generateTokenPair w payload).refreshToken.expiry = some (w.now + 604800) ∧
      w.now + 900 < w.now + 604800) := by
  refine ⟨rfl, rfl, rfl, rfl, by omega, ?_⟩
  intro h1 h2
  refine ⟨?_, ?_, by omega⟩
  · simp [generateTokenPair, generateAccessToken, jwt.sign, Token.expiry, h1]
  · simp [generateTokenPair, generateRefreshToken, jwt.sign, Token.expiry, h2]

/-- Witness for `pair_lifetimes`: under the sample environment, at second 1000. -/
theorem pair_lifetimes_witness :
    (generateTokenPair (worldAt 1000) alicePayload).accessToken.expiry = some 1900 ∧
    (generateTokenPair (worldAt 1000) alicePayload).refreshToken.expiry = some 605800 :=
  ⟨((pair_lifetimes (worldAt 1000) alicePayload).2.2.2.2.2 rfl rfl).1,
   ((pair_lifetimes (worldAt 1000) alicePayload).2.2.2.2.2 rfl rfl).2.1⟩

/-! ## Client logout and the mirror invariant -/

/-- C27: however the awaited `POST /auth/logout` call settles (fulfilled with any
response, or rejected with any error, with or without a response), `logout` runs to
its end with user null, held token null and the persisted slot removed; it has no
rejecting outcome. In particular, with the hooks installed and any positive budget,
this is so for every answer of the server to the logout request other than 401:
success, another error status, or no response (a 401 answer is first handled by the
response hook, and `logout` ends when that has settled). -/
theorem logout_tears_down (c : Client) :
    (∀ (request : Client → Config → Client × Option Settled) c1 outcome,
      request c logoutConfig = (c1, some outcome) →
      logout request c
        = ({ c1 with user := none, accessToken := none, storage := none }, true)) ∧
    (∀ (srv : Server) (fuel : Nat),
      (match srv c.log (requestInterceptor c.hookToken logoutConfig) with
        | none => True
        | some r => r.status ≠ 401) →
      (logout (axios srv (fuel + 1)) c).2 = true ∧
      (logout (axios srv (fuel + 1)) c).1.user = none ∧
      (logout (axios srv (fuel + 1)) c).1.accessToken = none ∧
      (logout (axios srv (fuel + 1)) c).1.storage = none) := by
  refine ⟨?_, ?_⟩
  · intro request c1 outcome h
    simp [logout, h]
  · intro srv fuel h
    obtain ⟨res, hl⟩ := axios_settles srv fuel c logoutConfig h
    simp [logout, hl]

/-- Witness for `logout_tears_down`: the logout call is answered 500. -/
theorem logout_tears_down_witness :
    (logout (axios brokenRefreshServer 1)
        { staleClient with log := [getUsers] }).1.accessToken = none ∧
    (logout (axios (fun _ _ => some { status := 500, accessToken := none, user := none }) 1)
        staleClient).2 = true :=
  ⟨((logout_tears_down { staleClient with log := [getUsers] }).2 brokenRefreshServer 0
      (show (200 : Nat) ≠ 401 from by decide)).2.2.1,
   ((logout_tears_down staleClient).2
      (fun _ _ => some { status := 500, accessToken := none, user := none }) 0
      (show (500 : Nat) ≠ 401 from by decide)).1⟩

theorem requestInterceptor_url (t : Option String) (config : Config) :
    (requestInterceptor t config).url = config.url := by
  unfold requestInterceptor
  split <;> rfl

theorem text_of_ne_none {v : Option String} (h : v ≠ none) : some (text v) = v := by
  cases v with
  | none => exact absurd rfl h
  | some t => rfl

/-- The rejection handler of the response hook keeps the mirror invariant when the
axios instance under it does, and what it fulfils with is what the instance fulfilled
the re-issued request with. -/
theorem responseInterceptor_mirrored (ax : Client → Config → Client × Option Settled)
    (hax : ∀ (c : Client) (config : Config), Mirrored c →
      Mirrored (ax c config).1 ∧
      (∀ r, (ax c config).2 = some (.fulfilled r) →
        (config.url = "/auth/login" ∨ config.url = "/auth/register" ∨
          config.url = "/auth/refresh-token") →
        r.accessToken ≠ none))
    (c : Client) (hc : Mirrored c) (error : AxiosError) :
    Mirrored (responseInterceptor ax c error).1 ∧
    (∀ r, (responseInterceptor ax c error).2 = some (.fulfilled r) →
      (error.config.url = "/auth/login" ∨ error.config.url = "/auth/register" ∨
        error.config.url = "/auth/refresh-token") →
      r.accessToken ≠ none) := by
  unfold responseInterceptor
  by_cases hcond : (error.response.map (fun r => r.status) == some 401
      && !error.config._retry) = true
  · simp only [hcond, if_true]
    have ihr := hax c refreshConfig hc
    rcases hres : ax c refreshConfig with ⟨c2, out⟩
    rw [hres] at ihr
    cases out with
    | none => exact ⟨ihr.1, by simp⟩
    | some settled =>
      cases settled with
      | fulfilled response =>
        have htok := ihr.2 response rfl (Or.inr (Or.inr rfl))
        have hc3 : Mirrored { c2 with accessToken := response.accessToken
                                      storage := some (text response.accessToken) } :=
          text_of_ne_none htok
        have ih2 := hax _
          { error.config with
              _retry := true
              Authorization := some ("Bearer " ++ text response.accessToken) } hc3
        exact ⟨ih2.1, fun r hr hu => ih2.2 r hr hu⟩
      | rejected refreshError =>
        have ihl := hax c2 logoutConfig ihr.1
        simp only [logout]
        rcases hlo : ax c2 logoutConfig with ⟨c3, out3⟩
        rw [hlo] at ihl
        cases out3 with
        | none => exact ⟨ihl.1, by simp⟩
        | some _ => exact ⟨rfl, by simp⟩
  · simp only [hcond]
    exact ⟨hc, by simp⟩

/-- With a server that keeps the wire contract, every run of the axios instance keeps
the mirror invariant, and a fulfilled call of an issuing endpoint carries a token. -/
theorem axios_mirrored (srv : Server) (hsrv : IssuesTokens srv) (fuel : Nat) :
    ∀ (c : Client) (config : Config), Mirrored c →
      Mirrored (axios srv fuel c config).1 ∧
      (∀ r, (axios srv fuel c config).2 = some (.fulfilled r) →
        (config.url = "/auth/login" ∨ config.url = "/auth/register" ∨
          config.url = "/auth/refresh-token") →
        r.accessToken ≠ none) := by
  induction fuel with
  | zero =>
    intro c config hc
    simp [axios, hc]
  | succ n ih =>
    intro c config hc
    have hc1 : Mirrored (rerender { c with log := c.log ++ [requestInterceptor c.hookToken config] }) :=
      hc
    have hurl := requestInterceptor_url c.hookToken config
    have hook : ∀ (resp : Option AxiosResponse),
        Mirrored (responseInterceptor (axios srv n)
          (rerender { c with log := c.log ++ [requestInterceptor c.hookToken config] })
          { config := requestInterceptor c.hookToken config, response := resp }).1 ∧
        (∀ r, (responseInterceptor (axios srv n)
          (rerender { c with log := c.log ++ [requestInterceptor c.hookToken config] })
          { config := requestInterceptor c.hookToken config, response := resp }).2
            = some (.fulfilled r) →
          (config.url = "/auth/login" ∨ config.url = "/auth/register" ∨
            config.url = "/auth/refresh-token") →
          r.accessToken ≠ none) := by
      intro resp
      have h := responseInterceptor_mirrored (axios srv n) ih _ hc1
        { config := requestInterceptor c.hookToken config, response := resp }
      exact ⟨h.1, fun r hr hu => h.2 r hr (by simpa [hurl] using hu)⟩
    simp only [axios]
    cases hs : srv c.log (requestInterceptor c.hookToken config) with
    | none => exact hook none
    | some response =>
      by_cases h2 : 200 ≤ response.status ∧ response.status < 300
      · simp only [h2, and_self, if_true]
        refine ⟨hc1, ?_⟩
        intro r hr hu
        simp only [Option.some.injEq, Settled.fulfilled.injEq] at hr
        subst hr
        exact hsrv _ _ _ hs h2.1 h2.2 (by simpa [hurl] using hu)
      · simp only [h2, if_false]
        exact hook (some response)

/-- C25: with a server that keeps the wire contract (a 2xx answer of login, register
or refresh carries an access token), the client mounts with the persisted slot equal
to the held token, and from a state in which they are equal every client operation
leaves them equal, whatever its outcome and budget: `login`, `register`, the
rejection handler of the response hook (for any error, refresh and retry included),
`logout`, and the start-up check `checkAuth`. -/
theorem mirror_invariant (srv : Server) (hsrv : IssuesTokens srv) (fuel : Nat) (c : Client)
    (hc : Mirrored c) :
    (∀ slot, Mirrored (AuthProvider.init slot)) ∧
    Mirrored (AuthProvider.login (axios srv fuel) c).1 ∧
    Mirrored (AuthProvider.register (axios srv fuel) c).1 ∧
    (∀ error, Mirrored (responseInterceptor (axios srv fuel) c error).1) ∧
    Mirrored (logout (axios srv fuel) c).1 ∧
    Mirrored (AuthProvider.checkAuth (axios srv fuel) c).1 := by
  have hax := axios_mirrored srv hsrv fuel
  refine ⟨fun _ => rfl, ?_, ?_, ?_, ?_, ?_⟩
  · have h := hax c loginConfig hc
    unfold AuthProvider.login
    rcases hres : axios srv fuel c loginConfig with ⟨c1, out⟩
    rw [hres] at h
    cases out with
    | none => exact h.1
    | some settled =>
      cases settled with
      | fulfilled response => exact text_of_ne_none (h.2 response rfl (Or.inl rfl))
      | rejected e => exact h.1
  · have h := hax c registerConfig hc
    unfold AuthProvider.register
    rcases hres : axios srv fuel c registerConfig with ⟨c1, out⟩
    rw [hres] at h
    cases out with
    | none => exact h.1
    | some settled =>
      cases settled with
      | fulfilled response => exact text_of_ne_none (h.2 response rfl (Or.inr (Or.inl rfl)))
      | rejected e => exact h.1
  · intro error
    exact (responseInterceptor_mirrored (axios srv fuel) hax c hc error).1
  · have h := hax c logoutConfig hc
    unfold logout
    rcases hres : axios srv fuel c logoutConfig with ⟨c1, out⟩
    rw [hres] at h
    cases out with
    | none => exact h.1
    | some _ => rfl
  · unfold AuthProvider.checkAuth
    by_cases ht : truthy c.accessToken = true
    · have h := hax c profileConfig hc
      simp only [ht, if_true]
      rcases hres : axios srv fuel c profileConfig with ⟨c1, out⟩
      rw [hres] at h
      cases out with
      | none => exact h.1
      | some settled =>
        cases settled with
        | fulfilled response => exact h.1
        | rejected e => rfl
    · simp only [ht]
      exact hc

/-- Witness for `mirror_invariant`: the client mounted on the slot `old` logs in
against a server that issues `new`. -/
theorem mirror_invariant_witness :
    IssuesTokens issuingServer ∧
    Mirrored (AuthProvider.init (some "old")) ∧
    (AuthProvider.login (axios issuingServer 2) (AuthProvider.init (some "old"))).1.storage
      = (AuthProvider.login (axios issuingServer 2) (AuthProvider.init (some "old"))).1.accessToken :=
  ⟨by
      intro log config r h _ _ _
      simp only [issuingServer, Option.some.injEq] at h
      subst h
      simp,
   rfl,
   (mirror_invariant issuingServer (by
      intro log config r h _ _ _
      simp only [issuingServer, Option.some.injEq] at h
      subst h
      simp) 2 (AuthProvider.init (some "old")) rfl).2.1⟩

/-! ## Protected fields -/

/-- C26 (evaluation at the failing input): the authenticated sample principal, stored
with role `client`, sends the body `{ "$set": { "role": "provider" } }`. No deleted
key is among the body's keys, the update is applied, and the stored role is
`provider` afterwards. The body `{ "role": "provider" }` is stripped and changes
nothing. -/
theorem updateProfile_operator_changes_role :
    (updateProfile (worldAt 1500) aliceDb aliceAuthedReq
        [("$set", .doc [("role", .str "provider")])]).2.status = 200 ∧
    (aliceDb.users.map (fun u => u.role)) = ["client"] ∧
    ((updateProfile (worldAt 1500) aliceDb aliceAuthedReq
        [("$set", .doc [("role", .str "provider")])]).1.users.map (fun u => u.role))
      = ["provider"] ∧
    (updateProfile (worldAt 1500) aliceDb aliceAuthedReq
        [("role", .scalar (.str "provider"))]).1 = aliceDb := by
  refine ⟨by decide, by decide, by decide, by decide⟩

/-! ## Pagination -/

theorem pageCount_le_iff (total limit m : Int) (hl : 0 < limit) :
    pageCount total limit ≤ m ↔ total ≤ m * limit := by
  unfold pageCount
  rw [Int.ceil_le]
  have hq : (0 : ℚ) < (limit : ℚ) := by exact_mod_cast hl
  rw [div_le_iff₀ hq]
  norm_cast

/-- C28: for `total ≥ 0` and an integer `limit ≥ 1`, the reported page count is the
least `n` with `n * limit ≥ total`; every index of `[0, total)` lies on a page
`1 ≤ p ≤ n`; no index lies on two pages; and every page beyond `n` is empty. -/
theorem pagination_covers (total limit : Int) (_ht : 0 ≤ total) (hl : 1 ≤ limit) :
    total ≤ pageCount total limit * limit ∧
    (∀ m : Int, total ≤ m * limit → pageCount total limit ≤ m) ∧
    (∀ i, 0 ≤ i → i < total →
      ∃ p, 1 ≤ p ∧ p ≤ pageCount total limit ∧ onPage total limit p i) ∧
    (∀ p q i, onPage total limit p i → onPage total limit q i → p = q) ∧
    (∀ p, pageCount total limit < p → ∀ i, ¬ onPage total limit p i) := by
  have hpos : 0 < limit := by omega
  have h1 : total ≤ pageCount total limit * limit :=
    (pageCount_le_iff total limit _ hpos).1 le_rfl
  refine ⟨h1, fun m hm => (pageCount_le_iff total limit m hpos).2 hm, ?_, ?_, ?_⟩
  · intro i hi0 hit
    have hlt : i < pageCount total limit * limit := lt_of_lt_of_le hit h1
    have hdiv : i / limit < pageCount total limit := Int.ediv_lt_of_lt_mul hpos hlt
    have hnn : 0 ≤ i / limit := Int.ediv_nonneg hi0 (le_of_lt hpos)
    have hlo : i / limit * limit ≤ i := Int.ediv_mul_le i (ne_of_gt hpos)
    have hhi : i < (i / limit + 1) * limit := Int.lt_ediv_add_one_mul_self i hpos
    refine ⟨i / limit + 1, by omega, by omega, ?_⟩
    unfold onPage skip
    have e : i / limit + 1 - 1 = i / limit := by omega
    rw [e]
    refine ⟨hlo, ?_, hi0, hit⟩
    have : (i / limit + 1) * limit = i / limit * limit + limit := by ring
    omega
  · intro p q i hp hq
    unfold onPage skip at hp hq
    obtain ⟨hp1, hp2, _, _⟩ := hp
    obtain ⟨hq1, hq2, _, _⟩ := hq
    by_contra hne
    rcases lt_or_gt_of_ne hne with h | h
    · have := mul_le_mul_of_nonneg_right (show p ≤ q - 1 by omega) (le_of_lt hpos)
      have e : (p - 1) * limit + limit = p * limit := by ring
      omega
    · have := mul_le_mul_of_nonneg_right (show q ≤ p - 1 by omega) (le_of_lt hpos)
      have e : (q - 1) * limit + limit = q * limit := by ring
      omega
  · intro p hp i hon
    unfold onPage skip at hon
    obtain ⟨h2, _, _, h4⟩ := hon
    have := mul_le_mul_of_nonneg_right (show pageCount total limit ≤ p - 1 by omega)
      (le_of_lt hpos)
    omega

/-- Witness for `pagination_covers`: 25 documents in pages of 10 make 3 pages. -/
theorem pagination_covers_witness :
    (0 : Int) ≤ 25 ∧ (1 : Int) ≤ 10 ∧ pageCount 25 10 = 3 := by
  have h := pagination_covers 25 10 (by decide) (by decide)
  have h1 := h.1
  have h2 := h.2.1 3 (by decide)
  refine ⟨by decide, by decide, ?_⟩
  omega

/-! ## The registration form -/

/-- C30: `validateForm` returns the empty list exactly when the passwords are equal,
the password has at least 6 code units and, for the role `provider`, business name
and business description are non-empty after trimming; in general it returns the
messages of the violated rules, each once, in the order mismatch, length, business
name, business description; and `handleSubmit` sends the registration request exactly
when that list is empty, setting the list as the errors otherwise. -/
theorem validateForm_spec (f : FormData) :
    (validateForm f = [] ↔
      (f.password = f.confirmPassword ∧ 6 ≤ f.password.length ∧
        (f.role = units "provider" → trim f.businessName ≠ [] ∧ trim f.businessDescription ≠ []))) ∧
    validateForm f
      = (if f.password ≠ f.confirmPassword then ["Passwords do not match"] else []) ++
        (if f.password.length < 6 then ["Password must be at least 6 characters long"] else []) ++
        (if f.role = units "provider" ∧ trim f.businessName = [] then
          ["Business name is required for providers"] else []) ++
        (if f.role = units "provider" ∧ trim f.businessDescription = [] then
          ["Business description is required for providers"] else []) ∧
    ((handleSubmit f).2.isSome = true ↔ validateForm f = []) ∧
    ((handleSubmit f).2 = none → (handleSubmit f).1 = validateForm f) := by
  have hform : validateForm f
      = (if f.password ≠ f.confirmPassword then ["Passwords do not match"] else []) ++
        (if f.password.length < 6 then ["Password must be at least 6 characters long"] else []) ++
        (if f.role = units "provider" ∧ trim f.businessName = [] then
          ["Business name is required for providers"] else []) ++
        (if f.role = units "provider" ∧ trim f.businessDescription = [] then
          ["Business description is required for providers"] else []) := by
    unfold validateForm
    by_cases h1 : f.password = f.confirmPassword <;>
    by_cases h2 : f.password.length < 6 <;>
    by_cases h3 : f.role = units "provider" <;>
    by_cases h4 : trim f.businessName = [] <;>
    by_cases h5 : trim f.businessDescription = [] <;>
    simp [h1, h2, h3, h4, h5, List.isEmpty_iff]
  refine ⟨?_, hform, ?_, ?_⟩
  · rw [hform]
    by_cases h1 : f.password = f.confirmPassword <;>
    by_cases h2 : f.password.length < 6 <;>
    by_cases h3 : f.role = units "provider" <;>
    by_cases h4 : trim f.businessName = [] <;>
    by_cases h5 : trim f.businessDescription = [] <;>
    simp [h1, h2, h3, h4, h5]
  · unfold handleSubmit
    cases hv : validateForm f with
    | nil => simp
    | cons a rest => simp
  · unfold handleSubmit
    cases hv : validateForm f with
    | nil => simp
    | cons a rest => simp

/-- Witness for `validateForm_spec`: the filled-in provider form passes and is sent. -/
theorem validateForm_spec_witness :
    validateForm providerForm = [] ∧ (handleSubmit providerForm).2.isSome = true := by
  have h := validateForm_spec providerForm
  have hv : validateForm providerForm = [] := by decide
  exact ⟨hv, h.2.2.1.2 hv⟩

/-! ## The services text -/

theorem units_sep : units ", " = [44, 32] := by decide

theorem intercalate_cons_cons (sep s t : List Nat) (r : List (List Nat)) :
    sep.intercalate (s :: t :: r) = s ++ sep ++ sep.intercalate (t :: r) := by
  simp [List.intercalate, List.intersperse]

theorem intercalate_single (sep s : List Nat) : sep.intercalate [s] = s := by
  simp [List.intercalate, List.intersperse]

theorem intercalate_comma_space (s : List Nat) (rest : List (List Nat)) :
    [44, 32].intercalate (s :: rest) = [44].intercalate (s :: rest.map (fun e => 32 :: e)) := by
  induction rest generalizing s with
  | nil => simp [intercalate_single]
  | cons t r ih =>
    rw [intercalate_cons_cons, ih t, List.map_cons, intercalate_cons_cons]
    cases r with
    | nil => simp [intercalate_single]
    | cons t2 r2 =>
      rw [List.map_cons, intercalate_cons_cons, intercalate_cons_cons]
      simp

theorem trim_eq_self (e : List Nat) (hh : ∀ u, e.head? = some u → isWhiteSpace u = false)
    (hl : ∀ u, e.getLast? = some u → isWhiteSpace u = false) : trim e = e := by
  unfold trim
  have h1 : e.dropWhile isWhiteSpace = e := by
    cases e with
    | nil => rfl
    | cons a t =>
      have := hh a rfl
      simp [List.dropWhile_cons, this]
  rw [h1, List.rdropWhile_eq_self_iff]
  intro hne
  have := hl (e.getLast hne) (List.getLast?_eq_getLast _ hne)
  simp [this]

theorem trim_space_cons (e : List Nat) : trim (32 :: e) = trim e := by
  unfold trim
  have : isWhiteSpace 32 = true := by decide
  simp [List.dropWhile_cons, this]

theorem trim_head (x : List Nat) : ∀ u, (trim x).head? = some u → isWhiteSpace u = false := by
  intro u hu
  unfold trim at hu
  have hpre : (x.dropWhile isWhiteSpace).rdropWhile isWhiteSpace <+: x.dropWhile isWhiteSpace :=
    List.rdropWhile_prefix isWhiteSpace _
  obtain ⟨t, ht⟩ := hpre
  have hd := List.head?_dropWhile_not isWhiteSpace x
  cases hr : (x.dropWhile isWhiteSpace).rdropWhile isWhiteSpace with
  | nil => rw [hr] at hu; cases hu
  | cons a r =>
    rw [hr] at hu ht
    simp at hu
    subst hu
    rw [← ht] at hd
    simp at hd
    simpa using hd

theorem trim_last (x : List Nat) : ∀ u, (trim x).getLast? = some u → isWhiteSpace u = false := by
  intro u hu
  unfold trim at hu
  by_cases hne : (x.dropWhile isWhiteSpace).rdropWhile isWhiteSpace = []
  · rw [hne] at hu; cases hu
  · have := List.rdropWhile_last_not isWhiteSpace (x.dropWhile isWhiteSpace) hne
    rw [List.getLast?_eq_getLast _ hne] at hu
    cases hu
    simpa using this

theorem parse_show (L : List JsString)
    (h : ∀ e ∈ L, e ≠ [] ∧ (∀ u, e.head? = some u → isWhiteSpace u = false) ∧
      (∀ u, e.getLast? = some u → isWhiteSpace u = false) ∧ 44 ∉ e) :
    parseServices (showServices L) = L := by
  unfold parseServices showServices
  rw [units_sep]
  cases L with
  | nil => decide
  | cons s rest =>
    rw [intercalate_comma_space, List.splitOn_intercalate]
    · have hmap : (s :: rest.map (fun e => 32 :: e)).map trim = s :: rest := by
        rw [List.map_cons, List.map_map]
        have hs := h s (List.mem_cons_self _ _)
        rw [trim_eq_self s hs.2.1 hs.2.2.1]
        congr 1
        have : ∀ e ∈ rest, (trim ∘ fun e => 32 :: e) e = e := by
          intro e he
          have hE := h e (List.mem_cons_of_mem _ he)
          simp only [Function.comp, trim_space_cons]
          exact trim_eq_self e hE.2.1 hE.2.2.1
        calc rest.map (trim ∘ fun e => 32 :: e) = rest.map id := List.map_congr_left this
          _ = rest := List.map_id _
      rw [hmap, List.filter_eq_self]
      intro e he
      have := (h e he).1
      cases e with
      | nil => exact absurd rfl this
      | cons a t => rfl
    · intro l hl
      rcases List.mem_cons.1 hl with rfl | hl
      · exact (h l (List.mem_cons_self _ _)).2.2.2
      · obtain ⟨e, he, rfl⟩ := List.mem_map.1 hl
        have := (h e (List.mem_cons_of_mem _ he)).2.2.2
        simp [this]
    · simp

/-- C29: for a list of service names that are non-empty, neither start nor end with
white space and contain no comma, parsing the text shown for it (joined by `', '`,
then split at commas, each piece trimmed, empty pieces dropped) gives the list back
in the same order; and for every text the parsed list contains no empty entry and no
entry that starts or ends with white space. -/
theorem services_round_trip :
    (∀ L : List JsString,
      (∀ e ∈ L, e ≠ [] ∧ (∀ u, e.head? = some u → isWhiteSpace u = false) ∧
        (∀ u, e.getLast? = some u → isWhiteSpace u = false) ∧ 44 ∉ e) →
      parseServices (showServices L) = L) ∧
    (∀ (text : JsString), ∀ e ∈ parseServices text,
      e ≠ [] ∧ (∀ u, e.head? = some u → isWhiteSpace u = false) ∧
        (∀ u, e.getLast? = some u → isWhiteSpace u = false)) := by
  refine ⟨parse_show, ?_⟩
  intro text e he
  unfold parseServices at he
  rw [List.mem_filter] at he
  obtain ⟨hmem, hne⟩ := he
  obtain ⟨x, _, rfl⟩ := List.mem_map.1 hmem
  refine ⟨?_, trim_head x, trim_last x⟩
  intro h
  rw [h] at hne
  simp at hne

/-- Witness for `services_round_trip`: the services `plumbing` and `heating` are shown
as `plumbing, heating` and parsed back. -/
theorem services_round_trip_witness :
    showServices [units "plumbing", units "heating"] = units "plumbing, heating" ∧
    parseServices (units "plumbing, heating") = [units "plumbing", units "heating"] := by
  have hshow : showServices [units "plumbing", units "heating"] = units "plumbing, heating" := by
    decide
  refine ⟨hshow, ?_⟩
  rw [← hshow]
  apply services_round_trip.1
  intro e he
  simp only [List.mem_cons, List.mem_singleton, List.not_mem_nil, or_false] at he
  rcases he with rfl | rfl
  · refine ⟨by decide, ?_, ?_, by decide⟩
    · intro u hu
      have : u = 112 := by
        have h2 : (units "plumbing").head? = some 112 := by decide
        rw [h2] at hu
        exact (Option.some.inj hu).symm
      subst this
      decide
    · intro u hu
      have : u = 103 := by
        have h2 : (units "plumbing").getLast? = some 103 := by decide
        rw [h2] at hu
        exact (Option.some.inj hu).symm
      subst this
      decide
  · refine ⟨by decide, ?_, ?_, by decide⟩
    · intro u hu
      have : u = 104 := by
        have h2 : (units "heating").head? = some 104 := by decide
        rw [h2] at hu
        exact (Option.some.inj hu).symm
      subst this
      decide
    · intro u hu
      have : u = 103 := by
        have h2 : (units "heating").getLast? = some 103 := by decide
        rw [h2] at hu
        exact (Option.some.inj hu).symm
      subst this
      decide

/-! ## The backend keeps the wire contract the client relies on -/

theorem loginTry_status (w : World) (db : Db) (req : Req) (d : Db) (res : Response)
    (h : loginTry w db req = (d, .ok res)) :
    res.status = 200 ∨ res.status = 400 ∨ res.status = 401 := by
  simp only [loginTry] at h
  repeat' split at h
  all_goals (cases h <;> simp [jsonMessage])

theorem login_status_cases (w : World) (db : Db) (req : Req) :
    (login w db req).2.status = 200 ∨ (login w db req).2.status = 400 ∨
    (login w db req).2.status = 401 ∨ (login w db req).2.status = 500 := by
  unfold login
  rcases hr : loginTry w db req with ⟨d, out⟩
  cases out with
  | ok res =>
    have h := loginTry_status w db req d res hr
    simp only
    tauto
  | error e => simp [internalError]

theorem refreshTokenTry_status (w : World) (db : Db) (req : Req) (d : Db) (res : Response)
    (h : refreshTokenTry w db req = (d, .ok res)) :
    res.status = 200 ∨ res.status = 401 := by
  simp only [refreshTokenTry] at h
  repeat' split at h
  all_goals (cases h <;> simp [jsonMessage])

theorem refreshToken_status_cases (w : World) (db : Db) (req : Req) :
    (refreshToken w db req).2.status = 200 ∨ (refreshToken w db req).2.status = 401 ∨
    (refreshToken w db req).2.status = 500 := by
  unfold refreshToken
  rcases hr : refreshTokenTry w db req with ⟨d, out⟩
  cases out with
  | ok res =>
    have h := refreshTokenTry_status w db req d res hr
    simp only
    tauto
  | error e =>
    by_cases hc : (e.name == "JsonWebTokenError" || e.name == "TokenExpiredError") = true
    · simp [hc, jsonMessage]
    · simp [hc, internalError]

theorem registerTry_status (w : World) (db : Db) (body : RegisterBody) (d : Db) (res : Response)
    (h : registerTry w db body = (d, .ok res)) :
    res.status = 201 ∨ res.status = 400 := by
  simp only [registerTry] at h
  repeat' split at h
  all_goals (cases h <;> simp [jsonMessage])

theorem register_status_cases (w : World) (db : Db) (body : RegisterBody) :
    (register w db body).2.status = 201 ∨ (register w db body).2.status = 400 ∨
    (register w db body).2.status = 500 := by
  unfold register
  rcases hr : registerTry w db body with ⟨d, out⟩
  cases out with
  | ok res =>
    have h := registerTry_status w db body d res hr
    simp only
    tauto
  | error e =>
    by_cases hc : (e.code == some 11000) = true
    · simp [hc, jsonMessage]
    · by_cases hv : (e.name == "ValidationError") = true
      · simp [hc, hv]
      · simp [hc, hv, internalError]

/-- Every 2xx answer of the backend's login, register and refresh endpoints carries an
access token in its body. -/
theorem backend_issues_tokens (w : World) (db : Db) :
    (∀ req, 200 ≤ (login w db req).2.status → (login w db req).2.status < 300 →
      (login w db req).2.body.accessToken ≠ none) ∧
    (∀ body, 200 ≤ (register w db body).2.status → (register w db body).2.status < 300 →
      (register w db body).2.body.accessToken ≠ none) ∧
    (∀ req, 200 ≤ (refreshToken w db req).2.status → (refreshToken w db req).2.status < 300 →
      (refreshToken w db req).2.body.accessToken ≠ none) := by
  refine ⟨?_, ?_, ?_⟩
  · intro req h1 h2
    have h200 : (login w db req).2.status = 200 := by
      rcases login_status_cases w db req with h | h | h | h <;> omega
    obtain ⟨_, _, _, _, heq⟩ := login_success_inv w db req h200
    rw [heq]
    simp
  · intro body h1 h2
    have h201 : (register w db body).2.status = 201 := by
      rcases register_status_cases w db body with h | h | h <;> omega
    obtain ⟨_, _, _, _, heq⟩ := register_success_inv w db body h201
    rw [heq]
    simp
  · intro req h1 h2
    have h200 : (refreshToken w db req).2.status = 200 := by
      rcases refreshToken_status_cases w db req with h | h | h <;> omega
    obtain ⟨_, _, _, _, _, _, _, heq⟩ := refreshToken_success_inv w db req h200
    rw [heq]
    simp

end Servedi
